import Mathlib

/-!
Verification development for the popup-card subsystem of the RPG character
sheet manager (modules `item_popup` and `skill_popup`).

Text is modelled as `List Char`; SQLite tables are modelled as lists of rows
with explicit next-rowid state; nullable SQL values are `Option` values;
Python floats that only undergo `max` and division are modelled as rationals.
-/

/-- Coerces a string literal to the `List Char` representation of text. -/
def chars (s : String) : List Char := s.data

/-- The apostrophe character (used by the colour sanitizer of
`_css_for_border`, which replaces double quotes by single quotes). -/
def apos : Char := Char.ofNat 39

/-- Model of `row_field(row, key, default)` (identical in `item_popup.py`
and `skill_popup.py`): a `None` row, a missing key, or a SQL-NULL value at
the key all yield the supplied default.  Mappings (`sqlite3.Row` or `dict`)
are modelled as association lists whose values are `Option V` (`none` is
SQL NULL); the enclosing `try/except` of the source corresponds to this
function being total. -/
def row_field {V : Type} (row : Option (List (String × Option V))) (key : String) (default : V) : V :=
  match row with
  | none => default
  | some m =>
    match m.lookup key with
    | some (some v) => v
    | _ => default

/-- Model of Python `str.lower()` restricted to ASCII letters (the only
characters relevant to the filename-extension comparisons in the source). -/
def lowerAscii (s : List Char) : List Char := s.map Char.toLower

/-- Model of the MIME-type selection of `_render_item_template_popup`
(item_popup.py lines 806-812) and `_render_skill_template_popup`
(skill_popup.py lines 785-791): default `image/png`, with
`.jpg`/`.jpeg`, `.gif`, `.webp` recognised on the lowercased filename. -/
def mime_for_filename (fn : List Char) : List Char :=
  let l := lowerAscii fn
  if (chars (".jpg")).isSuffixOf l || (chars (".jpeg")).isSuffixOf l then chars ("image/jpeg")
  else if (chars (".gif")).isSuffixOf l then chars ("image/gif")
  else if (chars (".webp")).isSuffixOf l then chars ("image/webp")
  else chars ("image/png")

/-- Model of Python `s.count("\n")`. -/
def countNl (s : List Char) : Nat := s.countP (fun c => c = '\n')

/-- HTML escaping of one character, following CPython `html.escape` with
`quote=True` (`&`, `<`, `>`, `"` and the apostrophe are rewritten). -/
def escChar (c : Char) : List Char :=
  if c = '&' then chars ("&amp;")
  else if c = '<' then chars ("&lt;")
  else if c = '>' then chars ("&gt;")
  else if c = '"' then chars ("&quot;")
  else if c = apos then chars ("&#x27;")
  else [c]

/-- Model of `html.escape(s)` (the successive `str.replace` calls of CPython
commute into a single character-wise expansion because no replacement text
contains a character that a later stage rewrites). -/
def htmlEscape (s : List Char) : List Char := s.flatMap escChar

/-- The line-boundary characters of Python `str.splitlines` (ASCII and the
Unicode line separators). -/
def isLineBreak (c : Char) : Bool :=
  c = '\n' || c = '\r' || c = '\x0b' || c = '\x0c' ||
  c = Char.ofNat 28 || c = Char.ofNat 29 || c = Char.ofNat 30 ||
  c = Char.ofNat 133 || c = Char.ofNat 8232 || c = Char.ofNat 8233

/-- Model of Python `str.splitlines()`: splits at every line boundary,
treating `\r\n` as a single boundary, and not emitting an empty line after a
terminating boundary. -/
def splitlinesC : List Char → List (List Char)
  | [] => []
  | [c] => if isLineBreak c then [[]] else [[c]]
  | c :: c2 :: rest =>
    if c = '\r' ∧ c2 = '\n' then [] :: splitlinesC rest
    else if isLineBreak c then [] :: splitlinesC (c2 :: rest)
    else
      match splitlinesC (c2 :: rest) with
      | [] => [[c]]
      | l :: ls => (c :: l) :: ls

/-- Model of `esc_lines` (item_popup.py lines 842-845): escape each line of
the text and join the lines with `<br>`; empty (falsy) text yields "". -/
def esc_lines (text : List Char) : List Char :=
  if text = [] then []
  else List.intercalate (chars ("<br>")) ((splitlinesC text).map htmlEscape)

/-- Character-wise model of `.replace("\n", "<br>")`. -/
def replaceNlBr (s : List Char) : List Char :=
  s.flatMap (fun c => if c = '\n' then chars ("<br>") else [c])

/-- Model of the long-text escaping of `_render_skill_template_popup`
(skill_popup.py line 829): `_html.escape(s).replace("\n", "<br>")` for a
truthy string, `""` otherwise. -/
def skillEscField (s : List Char) : List Char :=
  if s = [] then [] else replaceNlBr (htmlEscape s)

/-- The animation-duration formula shared by the `flow`/`pulse`/`changing`
branches of `_css_for_border` in both files:
`max(0.6, base / float(max(0.1, speed)))`. -/
def borderDur (base speed : ℚ) : ℚ := max (6/10) (base / max (1/10) speed)

/-- The animation duration computed by `_css_for_border` (identical in
item_popup.py lines 343/360/373 and skill_popup.py lines 346/374/385) for a
given border type: base 4.0 s for `flow`, 2.0 s for `pulse`, 3.0 s for
`changing`; the other border types produce no animation. -/
def anim_duration (btype : List Char) (speed : ℚ) : Option ℚ :=
  if btype = chars ("flow") then some (borderDur 4 speed)
  else if btype = chars ("pulse") then some (borderDur 2 speed)
  else if btype = chars ("changing") then some (borderDur 3 speed)
  else none

/-- Model of the dynamic-height computation of `_render_item_template_popup`
(item_popup.py lines 1038-1045): newline counts of the effective description
(`descricao or item_desc or ""`), the passive-effect text and the equipment
bonus text, plus a padding of 6 lines, at 18 px per line over a 720 px base,
clamped to [820, 1400]. -/
def itemApproxHeight (descricao item_desc efeito_passivo bonus_equip : List Char) : Nat :=
  let num_lines :=
    countNl (if descricao = [] then item_desc else descricao) +
    countNl efeito_passivo + countNl bonus_equip + 6
  max 820 (min (720 + num_lines * 18) 1400)

/-- Model of the dynamic-height computation of `_render_skill_template_popup`
(skill_popup.py lines 993-1013): description lines (at least 1) and effect
lines (0 when empty) at 20 px per line over a 420 px base, plus 70 px when
either border is animated and 40 px when an icon blob is present, clamped to
[500, 2000]. -/
def skillApproxHeight (descricao efeito : List Char)
    (card_border_type image_border_type : List Char) (icon_blob : List Nat) : Nat :=
  let desc_lines := if descricao ≠ [] then countNl descricao + 1 else 1
  let effect_lines := if efeito ≠ [] then countNl efeito + 1 else 0
  let h := 420 + desc_lines * 20 + effect_lines * 20
  let h := if card_border_type ≠ chars ("none") ∨ image_border_type ≠ chars ("none") then h + 70 else h
  let h := if icon_blob ≠ [] then h + 40 else h
  min (max h 500) 2000

/-- The number of text lines of a field value as the specification counts
them: an empty field has no lines, otherwise one more line than there are
newline characters.  This definition follows the words of the height claim
and is compared against the heights computed by the source. -/
def specTextLines (s : List Char) : Nat := if s = [] then 0 else countNl s + 1

/-- One row of a popup table.  `target_a` stands for `target_item_id`
(item variant) or `target_skill_id` (skill variant); `F` bundles the
family-specific mutable columns (everything the `UPDATE` of `upsert_popup`
rewrites except `owner_user_id` and `updated_at`). -/
structure PopupRow (F : Type) where
  id : Nat
  owner_user_id : Option Int
  target_a : Option Int
  target_user_id : Option Int
  fields : F
  created_at : String
  updated_at : String
deriving DecidableEq

/-- A popup table: its rows in insertion (rowid) order together with the
next AUTOINCREMENT rowid. -/
structure PopupStore (F : Type) where
  rows : List (PopupRow F)
  nextId : Nat
deriving DecidableEq

/-- The empty popup table (AUTOINCREMENT starts at rowid 1). -/
def emptyStore (F : Type) : PopupStore F := ⟨[], 1⟩

/-- The natural-key comparison of the upsert SELECT:
`target_item_id IS ? AND target_user_id IS ?` — SQL `IS` is null-safe
equality, so NULL key parts compare equal to NULL. -/
def keyMatches {F : Type} (r : PopupRow F) (tA tU : Option Int) : Bool :=
  r.target_a == tA && r.target_user_id == tU

/-- Model of `upsert_popup` (item_popup.py lines 148-274, skill_popup.py
lines 167-289): SELECT the id of the row whose natural key IS-matches the
arguments; if found, UPDATE all mutable columns and `updated_at` on that id
and return it; otherwise INSERT a fresh row with
`created_at = updated_at = now` and return its rowid. -/
def upsert_popup {F : Type} (s : PopupStore F) (owner_user_id tA tU : Option Int)
    (fields : F) (now : String) : PopupStore F × Nat :=
  match s.rows.find? (fun r => keyMatches r tA tU) with
  | some row =>
    (⟨s.rows.map (fun r =>
        if r.id = row.id then
          { r with owner_user_id := owner_user_id, fields := fields, updated_at := now }
        else r),
      s.nextId⟩, row.id)
  | none =>
    (⟨s.rows ++ [⟨s.nextId, owner_user_id, tA, tU, fields, now, now⟩], s.nextId + 1⟩,
     s.nextId)

/-- Model of `delete_popup(popup_id)`: hard delete by rowid
(item_popup.py lines 277-280, skill_popup.py lines 292-296). -/
def delete_popup {F : Type} (s : PopupStore F) (popup_id : Nat) : PopupStore F :=
  ⟨s.rows.filter (fun r => r.id ≠ popup_id), s.nextId⟩

/-- One store operation: an upsert or a delete. -/
inductive PopupOp (F : Type) where
  | upsert (owner_user_id tA tU : Option Int) (fields : F) (now : String)
  | delete (popup_id : Nat)

/-- Applies one operation to the store. -/
def applyOp {F : Type} (s : PopupStore F) : PopupOp F → PopupStore F
  | PopupOp.upsert o tA tU f now => (upsert_popup s o tA tU f now).1
  | PopupOp.delete pid => delete_popup s pid

/-- Applies a sequence of operations from left to right. -/
def applyOps {F : Type} (s : PopupStore F) (ops : List (PopupOp F)) : PopupStore F :=
  ops.foldl applyOp s

/-- Number of stored rows whose natural key IS-matches `(tA, tU)`. -/
def keyCount {F : Type} (s : PopupStore F) (tA tU : Option Int) : Nat :=
  s.rows.countP (fun r => keyMatches r tA tU)

/-- The family-specific mutable columns of the `item_popup` table
(item_popup.py schema lines 38-56, in UPDATE order). -/
structure ItemFields where
  title : List Char
  icon_filename : List Char
  icon_blob : List Nat
  rank : List Char
  classificacao : List Char
  tipo : List Char
  usos : List Char
  requisitos : List Char
  efeito_passivo : List Char
  bonus_equipamento : List Char
  descricao : List Char
  card_border_type : List Char
  card_border_color1 : List Char
  card_border_color2 : List Char
  card_border_speed : ℚ
  image_border_type : List Char
  image_border_color1 : List Char
  image_border_color2 : List Char
  image_border_speed : ℚ
deriving DecidableEq

/-- The family-specific mutable columns of the `skill_popup` table
(skill_popup.py schema lines 44-64, in UPDATE order). -/
structure SkillFields where
  title : List Char
  icon_filename : List Char
  icon_blob : List Nat
  alcance : List Char
  duracao : List Char
  tempo_uso : List Char
  acao : List Char
  area : List Char
  usos : List Char
  tipo : List Char
  rank : List Char
  descricao : List Char
  efeito_bonus : List Char
  card_border_type : List Char
  card_border_color1 : List Char
  card_border_color2 : List Char
  card_border_speed : ℚ
  image_border_type : List Char
  image_border_color1 : List Char
  image_border_color2 : List Char
  image_border_speed : ℚ
deriving DecidableEq

/-- SQL `=` comparison of a nullable column against a Python-side value that
may itself be `None`: `col = NULL` is never true in SQL. -/
def sqlEq (col q : Option Int) : Bool :=
  match q with
  | some v => col == some v
  | none => false

/-- Model of the item-variant `get_popup_for(item_id, user_id)`
(item_popup.py lines 283-314): four queries tried in order, each guarded on
the non-`None` arguments it interpolates, returning the first hit:
(item, user) with `=`, then (item, NULL), then (NULL, user), then
(NULL, NULL). -/
def itemGetPopupFor (rows : List (PopupRow ItemFields)) (item_id user_id : Option Int) :
    Option (PopupRow ItemFields) :=
  let r1 : Option (PopupRow ItemFields) :=
    match item_id, user_id with
    | some i, some u => rows.find? (fun r => r.target_a == some i && r.target_user_id == some u)
    | _, _ => none
  match r1 with
  | some r => some r
  | none =>
    let r2 : Option (PopupRow ItemFields) :=
      match item_id with
      | some i => rows.find? (fun r => r.target_a == some i && r.target_user_id == none)
      | none => none
    match r2 with
    | some r => some r
    | none =>
      let r3 : Option (PopupRow ItemFields) :=
        match user_id with
        | some u => rows.find? (fun r => r.target_a == none && r.target_user_id == some u)
        | none => none
      match r3 with
      | some r => some r
      | none => rows.find? (fun r => r.target_a == none && r.target_user_id == none)

/-- The fallback lookup as the specification words it: an ordered list of
key variants tried in sequence — exact `(item_id, user_id)` under SQL `=`
(which never matches NULL), then `(item_id, NULL)`, then `(NULL, user_id)`,
then the global `(NULL, NULL)` — returning the first match.  Stated from the
spec to be compared against `itemGetPopupFor`. -/
def specItemFallbackLookup (rows : List (PopupRow ItemFields)) (item_id user_id : Option Int) :
    Option (PopupRow ItemFields) :=
  match rows.find? (fun r => sqlEq r.target_a item_id && sqlEq r.target_user_id user_id) with
  | some r => some r
  | none =>
    match rows.find? (fun r => sqlEq r.target_a item_id && r.target_user_id == none) with
    | some r => some r
    | none =>
      match rows.find? (fun r => r.target_a == none && sqlEq r.target_user_id user_id) with
      | some r => some r
      | none => rows.find? (fun r => r.target_a == none && r.target_user_id == none)

/-- Model of the skill-variant `get_popup_for(skill_id, user_id)`
(skill_popup.py lines 305-318): `None` in either argument short-circuits to
`None` before any query; otherwise a single exact `=` query. -/
def skillGetPopupFor (rows : List (PopupRow SkillFields)) (skill_id user_id : Option Int) :
    Option (PopupRow SkillFields) :=
  if skill_id = none ∨ user_id = none then none
  else rows.find? (fun r => r.target_a == skill_id && r.target_user_id == user_id)

/-- Python `str.isspace`-style whitespace relevant to `.strip()`. -/
def isPySpace (c : Char) : Bool :=
  c = ' ' || c = '\t' || c = '\n' || c = '\r' || c = '\x0b' || c = '\x0c'

/-- Model of Python `str.strip()`. -/
def stripC (s : List Char) : List Char :=
  ((s.dropWhile isPySpace).reverse.dropWhile isPySpace).reverse

/-- Renders a rational as text (stands in for Python float formatting of the
animation duration; the numeric value is the faithful part, its decimal
rendering is abstracted). -/
def ratToChars (q : ℚ) : List Char := chars (toString q)

/-- Renders a natural number as text. -/
def natToChars (n : Nat) : List Char := chars (toString n)

/-- Renders an integer as text. -/
def intToChars (i : Int) : List Char := chars (toString i)

/-- Model of `_css_for_border` of item_popup.py (lines 317-389): per border type, the inline declarations, the auxiliary animation rules and the class name `pfx_border_uid`. -/
def item_css_for_border (pfx btype c1 c2 : List Char) (speed : ℚ) (uid : List Char) :
    List Char × List Char × List Char :=
  let safe : List Char → List Char := fun s => s.map (fun ch => if ch = '"' then apos else ch)
  let cls := pfx ++ chars ("_border_") ++ uid
  let ie : List Char × List Char :=
    if btype = [] ∨ btype = chars ("none") then
      (chars ("border: none; border-radius:12px;"), ([] : List Char))
    else if btype = chars ("solid") then
      (chars ("border: 4px solid ") ++ safe c1 ++ chars ("; border-radius:12px;"), ([] : List Char))
    else if btype = chars ("gradient") then
      (chars ("border: 6px solid transparent; border-radius:14px;") ++
       chars ("-webkit-border-image: linear-gradient(90deg,") ++ safe c1 ++ chars (",") ++ safe c2 ++ chars (") 1;") ++
       chars ("border-image: linear-gradient(90deg,") ++ safe c1 ++ chars (",") ++ safe c2 ++ chars (") 1;"), ([] : List Char))
    else if btype = chars ("flow") then
      let dur := borderDur 4 speed
      (([] : List Char),
       chars ("\n") ++
        chars ("        @keyframes flow_") ++
        uid ++
        chars (" \x7b\n") ++
        chars ("           0%   \x7b --pos: 0deg;   \x7d\n") ++
        chars ("           100% \x7b --pos: 360deg; \x7d\n") ++
        chars ("        \x7d\n") ++
        chars ("        .") ++
        cls ++
        chars (" \x7b\n") ++
        chars ("           border: 6px solid transparent;\n") ++
        chars ("           border-radius:14px;\n") ++
        chars ("           --pos: 0deg;\n") ++
        chars ("           -webkit-border-image: conic-gradient(from var(--pos), ") ++
        safe c1 ++
        chars (", ") ++
        safe c2 ++
        chars (", ") ++
        safe c1 ++
        chars (") 1;\n") ++
        chars ("           border-image: conic-gradient(from var(--pos), ") ++
        safe c1 ++
        chars (", ") ++
        safe c2 ++
        chars (", ") ++
        safe c1 ++
        chars (") 1;\n") ++
        chars ("           animation: flow_") ++
        uid ++
        chars (" ") ++
        ratToChars dur ++
        chars ("s linear infinite;\n") ++
        chars ("        \x7d\n") ++
        chars ("        "))
    else if btype = chars ("pulse") then
      let dur := borderDur 2 speed
      (chars ("border: 4px solid ") ++ safe c1 ++ chars ("; border-radius:14px;"),
       chars ("\n") ++
        chars ("        @keyframes pulse_border_") ++
        uid ++
        chars (" \x7b\n") ++
        chars ("           0%   \x7b box-shadow: 0 0 0 0 rgba(0,0,0,0); \x7d\n") ++
        chars ("           50%  \x7b box-shadow: 0 0 24px 8px ") ++
        safe c1 ++
        chars ("66; \x7d\n") ++
        chars ("           100% \x7b box-shadow: 0 0 0 0 rgba(0,0,0,0); \x7d\n") ++
        chars ("        \x7d\n") ++
        chars ("        .") ++
        cls ++
        chars (" \x7b\n") ++
        chars ("           animation: pulse_border_") ++
        uid ++
        chars (" ") ++
        ratToChars dur ++
        chars ("s ease-in-out infinite;\n") ++
        chars ("        \x7d\n") ++
        chars ("        "))
    else if btype = chars ("changing") then
      let dur := borderDur 3 speed
      (chars ("border: 6px solid ") ++ safe c1 ++ chars ("; border-radius:14px;"),
       chars ("\n") ++
        chars ("        @keyframes changing_border_") ++
        uid ++
        chars (" \x7b\n") ++
        chars ("           0%   \x7b border-color: ") ++
        safe c1 ++
        chars ("; \x7d\n") ++
        chars ("           50%  \x7b border-color: ") ++
        safe c2 ++
        chars ("; \x7d\n") ++
        chars ("           100% \x7b border-color: ") ++
        safe c1 ++
        chars ("; \x7d\n") ++
        chars ("        \x7d\n") ++
        chars ("        .") ++
        cls ++
        chars (" \x7b\n") ++
        chars ("           animation: changing_border_") ++
        uid ++
        chars (" ") ++
        ratToChars dur ++
        chars ("s linear infinite;\n") ++
        chars ("        \x7d\n") ++
        chars ("        "))
    else
      (chars ("border: 3px solid ") ++ safe c1 ++ chars ("; border-radius:12px;"), ([] : List Char))
  (chars ("position:relative; box-sizing:border-box; ") ++ ie.1, ie.2, cls)

/-- Model of `_css_for_border` of skill_popup.py (lines 324-400): same structure as the item variant, with the `flow` border realised by a masked gradient pseudo-element instead of a conic gradient. -/
def skill_css_for_border (pfx btype c1 c2 : List Char) (speed : ℚ) (uid : List Char) :
    List Char × List Char × List Char :=
  let safe : List Char → List Char := fun s => s.map (fun ch => if ch = '"' then apos else ch)
  let cls := pfx ++ chars ("_border_") ++ uid
  let ie : List Char × List Char :=
    if btype = [] ∨ btype = chars ("none") then
      (chars ("border: none; border-radius:12px;"), ([] : List Char))
    else if btype = chars ("solid") then
      (chars ("border: 4px solid ") ++ safe c1 ++ chars ("; border-radius:12px;"), ([] : List Char))
    else if btype = chars ("gradient") then
      (chars ("border: 6px solid transparent; border-radius:14px; ") ++
       chars ("-webkit-border-image: linear-gradient(90deg, ") ++ safe c1 ++ chars (", ") ++ safe c2 ++ chars (") 1; ") ++
       chars ("border-image: linear-gradient(90deg, ") ++ safe c1 ++ chars (", ") ++ safe c2 ++ chars (") 1;"), ([] : List Char))
    else if btype = chars ("flow") then
      let dur := borderDur 4 speed
      (chars ("border-radius:14px;"),
       chars ("\n") ++
        chars ("        .") ++
        cls ++
        chars (" \x7b\n") ++
        chars ("           position: relative;\n") ++
        chars ("           border-radius:14px;\n") ++
        chars ("        \x7d\n") ++
        chars ("        .") ++
        cls ++
        chars ("::before \x7b\n") ++
        chars ("           content: \"\";\n") ++
        chars ("           position:absolute;\n") ++
        chars ("           inset:-3px;\n") ++
        chars ("           border-radius:inherit;\n") ++
        chars ("           padding:3px;\n") ++
        chars ("           background: linear-gradient(90deg, ") ++
        safe c1 ++
        chars (", ") ++
        safe c2 ++
        chars (", ") ++
        safe c1 ++
        chars (");\n") ++
        chars ("           background-size: 300% 300%;\n") ++
        chars ("           -webkit-mask:\n") ++
        chars ("             linear-gradient(#000 0 0) content-box,\n") ++
        chars ("             linear-gradient(#000 0 0);\n") ++
        chars ("           -webkit-mask-composite: xor;\n") ++
        chars ("                   mask-composite: exclude;\n") ++
        chars ("           animation: flow_") ++
        uid ++
        chars (" ") ++
        ratToChars dur ++
        chars ("s linear infinite;\n") ++
        chars ("        \x7d\n") ++
        chars ("        @keyframes flow_") ++
        uid ++
        chars (" \x7b\n") ++
        chars ("           0%   \x7b background-position: 0% 50%;   \x7d\n") ++
        chars ("           100% \x7b background-position: 200% 50%; \x7d\n") ++
        chars ("        \x7d\n") ++
        chars ("        "))
    else if btype = chars ("pulse") then
      let dur := borderDur 2 speed
      (chars ("border: 4px solid ") ++ safe c1 ++ chars ("; border-radius:14px;"),
       chars ("\n") ++
        chars ("        @keyframes pulse_border_") ++
        uid ++
        chars (" \x7b\n") ++
        chars ("           0% \x7b box-shadow: 0 0 0 0 rgba(0,0,0,0); \x7d\n") ++
        chars ("           50% \x7b box-shadow: 0 0 24px 8px ") ++
        safe c1 ++
        chars ("66; \x7d\n") ++
        chars ("           100% \x7b box-shadow: 0 0 0 0 rgba(0,0,0,0); \x7d\n") ++
        chars ("        \x7d\n") ++
        chars ("        .") ++
        cls ++
        chars (" \x7b animation: pulse_border_") ++
        uid ++
        chars (" ") ++
        ratToChars dur ++
        chars ("s ease-in-out infinite; \x7d\n") ++
        chars ("        "))
    else if btype = chars ("changing") then
      let dur := borderDur 3 speed
      (chars ("border: 6px solid ") ++ safe c1 ++ chars ("; border-radius:14px;"),
       chars ("\n") ++
        chars ("        @keyframes changing_border_") ++
        uid ++
        chars (" \x7b\n") ++
        chars ("           0% \x7b border-color: ") ++
        safe c1 ++
        chars ("; \x7d\n") ++
        chars ("           50% \x7b border-color: ") ++
        safe c2 ++
        chars ("; \x7d\n") ++
        chars ("           100% \x7b border-color: ") ++
        safe c1 ++
        chars ("; \x7d\n") ++
        chars ("        \x7d\n") ++
        chars ("        .") ++
        cls ++
        chars (" \x7b animation: changing_border_") ++
        uid ++
        chars (" ") ++
        ratToChars dur ++
        chars ("s linear infinite; \x7d\n") ++
        chars ("        "))
    else
      (chars ("border: 3px solid ") ++ safe c1 ++ chars ("; border-radius:12px;"), ([] : List Char))
  (chars ("position:relative; box-sizing:border-box; ") ++ ie.1, ie.2, cls)

/-- The part of the document template of `_render_item_template_popup` (item_popup.py lines 851-1035, after `textwrap.dedent` and `lstrip`) that precedes the embedded icon block.  Fragments
interpolated from `_css_for_border` keep their source indentation. -/
def itemDocBefore (card_cls card_css_inline img_cls img_css_inline card_extra img_extra : List Char) : List Char :=
  chars ("<!doctype html>\n") ++
    chars ("<html>\n") ++
    chars ("<head>\n") ++
    chars ("  <meta charset=\"utf-8\">\n") ++
    chars ("  <meta name=\"viewport\" content=\"width=device-width,initial-scale=1\">\n") ++
    chars ("  <style>\n") ++
    chars ("    :root \x7b\n") ++
    chars ("      --bg1: #2ea8ff;\n") ++
    chars ("      --bg2: #0056d3;\n") ++
    chars ("      --headline: #ffffff;\n") ++
    chars ("      --body-text: #e4f4ff;\n") ++
    chars ("      font-family: \"Segoe UI\", Roboto, Arial, sans-serif;\n") ++
    chars ("    \x7d\n") ++
    chars ("    body \x7b\n") ++
    chars ("      margin:0;\n") ++
    chars ("      background: transparent;\n") ++
    chars ("      -webkit-font-smoothing:antialiased;\n") ++
    chars ("    \x7d\n") ++
    chars ("    .outer \x7b\n") ++
    chars ("      width:100%;\n") ++
    chars ("      display:flex;\n") ++
    chars ("      justify-content:center;\n") ++
    chars ("      padding:8px 14px;\n") ++
    chars ("      box-sizing:border-box;\n") ++
    chars ("    \x7d\n") ++
    chars ("    .card \x7b\n") ++
    chars ("      width:960px;\n") ++
    chars ("      border-radius:20px;\n") ++
    chars ("      padding:20px;\n") ++
    chars ("      color:var(--body-text);\n") ++
    chars ("      position:relative;\n") ++
    chars ("      overflow:visible;\n") ++
    chars ("      box-sizing:border-box;\n") ++
    chars ("    \x7d\n") ++
    chars ("    .card-inner \x7b\n") ++
    chars ("      background: linear-gradient(180deg, var(--bg1) 0%, var(--bg2) 100%);\n") ++
    chars ("      border-radius:16px;\n") ++
    chars ("      padding:18px 26px 24px;\n") ++
    chars ("      box-sizing:border-box;\n") ++
    chars ("    \x7d\n") ++
    chars ("    .title-bar \x7b\n") ++
    chars ("      text-align:center;\n") ++
    chars ("      font-size:24px;\n") ++
    chars ("      font-weight:800;\n") ++
    chars ("      letter-spacing:1px;\n") ++
    chars ("      color:var(--headline);\n") ++
    chars ("      text-shadow:0 0 8px rgba(0,0,0,0.65);\n") ++
    chars ("      margin-bottom:12px;\n") ++
    chars ("    \x7d\n") ++
    chars ("    .top-icons \x7b\n") ++
    chars ("      position:absolute;\n") ++
    chars ("      right:32px; top:22px;\n") ++
    chars ("      display:flex;\n") ++
    chars ("      gap:4px;\n") ++
    chars ("    \x7d\n") ++
    chars ("    .top-icon-box \x7b\n") ++
    chars ("      width:18px; height:18px;\n") ++
    chars ("      border-radius:3px;\n") ++
    chars ("      border:1px solid rgba(255,255,255,0.75);\n") ++
    chars ("      background:rgba(0,0,0,0.12);\n") ++
    chars ("    \x7d\n") ++
    chars ("    .content-row \x7b\n") ++
    chars ("      display:flex;\n") ++
    chars ("      gap:22px;\n") ++
    chars ("      align-items:flex-start;\n") ++
    chars ("    \x7d\n") ++
    chars ("    .icon-col \x7b\n") ++
    chars ("      width:210px;\n") ++
    chars ("      flex:0 0 210px;\n") ++
    chars ("      text-align:center;\n") ++
    chars ("      position:relative;\n") ++
    chars ("    \x7d\n") ++
    chars ("    .icon-wrapper \x7b\n") ++
    chars ("      display:inline-block;\n") ++
    chars ("      padding:8px;\n") ++
    chars ("      border-radius:14px;\n") ++
    chars ("      box-sizing:border-box;\n") ++
    chars ("    \x7d\n") ++
    chars ("    .text-col \x7b\n") ++
    chars ("      flex:1;\n") ++
    chars ("      min-width:0;\n") ++
    chars ("      position:relative;\n") ++
    chars ("      color:var(--body-text);\n") ++
    chars ("    \x7d\n") ++
    chars ("    .item-name \x7b\n") ++
    chars ("      font-size:22px;\n") ++
    chars ("      font-weight:800;\n") ++
    chars ("      color:#ffffff;\n") ++
    chars ("      margin-bottom:4px;\n") ++
    chars ("      text-shadow:0 0 8px rgba(0,0,0,0.6);\n") ++
    chars ("    \x7d\n") ++
    chars ("    .meta-block \x7b\n") ++
    chars ("      font-size:14px;\n") ++
    chars ("      margin-bottom:10px;\n") ++
    chars ("      line-height:1.4;\n") ++
    chars ("    \x7d\n") ++
    chars ("    .meta-block div \x7b\n") ++
    chars ("      margin-bottom:2px;\n") ++
    chars ("    \x7d\n") ++
    chars ("    .section-title \x7b\n") ++
    chars ("      font-size:16px;\n") ++
    chars ("      font-weight:800;\n") ++
    chars ("      color:#ffffff;\n") ++
    chars ("      margin-top:10px;\n") ++
    chars ("      margin-bottom:4px;\n") ++
    chars ("    \x7d\n") ++
    chars ("    .section-text \x7b\n") ++
    chars ("      font-size:14px;\n") ++
    chars ("      line-height:1.4;\n") ++
    chars ("    \x7d\n") ++
    chars ("    .desc-block \x7b\n") ++
    chars ("      margin-top:12px;\n") ++
    chars ("      font-size:14px;\n") ++
    chars ("      line-height:1.45;\n") ++
    chars ("    \x7d\n") ++
    chars ("    .desc-label \x7b\n") ++
    chars ("      font-weight:800;\n") ++
    chars ("      margin-bottom:4px;\n") ++
    chars ("    \x7d\n") ++
    chars ("    .desc-box \x7b\n") ++
    chars ("      background:rgba(0,0,0,0.16);\n") ++
    chars ("      border-radius:10px;\n") ++
    chars ("      padding:10px;\n") ++
    chars ("    \x7d\n") ++
    chars ("    @media (max-width:980px) \x7b\n") ++
    chars ("      .card \x7b width:100%; padding:16px; \x7d\n") ++
    chars ("      .content-row \x7b flex-direction:column; \x7d\n") ++
    chars ("      .icon-col \x7b width:100%; flex:unset; text-align:center; margin-bottom:14px; \x7d\n") ++
    chars ("    \x7d\n") ++
    chars ("    .card-inner.") ++
    card_cls ++
    chars (" \x7b ") ++
    card_css_inline ++
    chars (" \x7d\n") ++
    chars ("    .") ++
    img_cls ++
    chars (" \x7b ") ++
    img_css_inline ++
    chars (" \x7d\n") ++
    chars ("    ") ++
    card_extra ++
    chars ("\n") ++
    chars ("    ") ++
    img_extra ++
    chars ("\n") ++
    chars ("  </style>\n") ++
    chars ("</head>\n") ++
    chars ("<body>\n") ++
    chars ("  <div class=\"outer\">\n") ++
    chars ("    <div class=\"card\">\n") ++
    chars ("      <div class=\"card-inner ") ++
    card_cls ++
    chars ("\">\n") ++
    chars ("        <div class=\"title-bar\">&lt;INFORMAÇÕES DO ITEM&gt;</div>\n") ++
    chars ("        <div class=\"top-icons\">\n") ++
    chars ("          <div class=\"top-icon-box\"></div>\n") ++
    chars ("          <div class=\"top-icon-box\"></div>\n") ++
    chars ("          <div class=\"top-icon-box\"></div>\n") ++
    chars ("        </div>\n") ++
    chars ("        <div class=\"content-row\">\n") ++
    chars ("          <div class=\"icon-col\">\n") ++
    chars ("            <div class=\"icon-wrapper ") ++
    img_cls ++
    chars ("\">\n") ++
    chars ("              ")

/-- The part of the same document template that follows the icon block. -/
def itemDocAfter (title_esc rank_esc classificacao_esc tipo_esc usos_esc requisitos_esc efeito_esc bonus_esc desc_esc : List Char) : List Char :=
  chars ("\n") ++
    chars ("            </div>\n") ++
    chars ("          </div>\n") ++
    chars ("          <div class=\"text-col\">\n") ++
    chars ("            <div class=\"item-name\">&lt;") ++
    title_esc ++
    chars ("&gt;</div>\n") ++
    chars ("            <div class=\"meta-block\">\n") ++
    chars ("              <div>[RANK: ") ++
    rank_esc ++
    chars ("]</div>\n") ++
    chars ("              <div>[CLASSIFICAÇÃO: ") ++
    classificacao_esc ++
    chars ("]</div>\n") ++
    chars ("              <div>[TIPO: ") ++
    tipo_esc ++
    chars ("] [USOS: ") ++
    usos_esc ++
    chars ("]</div>\n") ++
    chars ("              <div>[REQUISITOS: ") ++
    requisitos_esc ++
    chars ("]</div>\n") ++
    chars ("            </div>\n") ++
    chars ("\n") ++
    chars ("            <div class=\"section\">\n") ++
    chars ("              <div class=\"section-title\">EFEITO PASSIVO:</div>\n") ++
    chars ("              <div class=\"section-text\">") ++
    efeito_esc ++
    chars ("</div>\n") ++
    chars ("            </div>\n") ++
    chars ("\n") ++
    chars ("            <div class=\"section\">\n") ++
    chars ("              <div class=\"section-title\">BONUS DE EQUIPAMENTO:</div>\n") ++
    chars ("              <div class=\"section-text\">") ++
    bonus_esc ++
    chars ("</div>\n") ++
    chars ("            </div>\n") ++
    chars ("\n") ++
    chars ("            <div class=\"desc-block\">\n") ++
    chars ("              <div class=\"desc-label\">DESCRIÇÃO:</div>\n") ++
    chars ("              <div class=\"desc-box\">") ++
    desc_esc ++
    chars ("</div>\n") ++
    chars ("            </div>\n") ++
    chars ("          </div>\n") ++
    chars ("        </div>\n") ++
    chars ("      </div>\n") ++
    chars ("    </div>\n") ++
    chars ("  </div>\n") ++
    chars ("</body>\n") ++
    chars ("</html>\n")

/-- The part of the document template of `_render_skill_template_popup` (skill_popup.py lines 834-988, after `textwrap.dedent` and `lstrip`) that precedes the embedded icon block.  Fragments
interpolated from `_css_for_border` keep their source indentation. -/
def skillDocBefore (card_cls card_css_inline img_cls img_css_inline card_extra img_extra : List Char) : List Char :=
  chars ("<!doctype html>\n") ++
    chars ("<html>\n") ++
    chars ("<head>\n") ++
    chars ("  <meta charset=\"utf-8\">\n") ++
    chars ("  <meta name=\"viewport\" content=\"width=device-width,initial-scale=1\">\n") ++
    chars ("  <style>\n") ++
    chars ("    :root \x7b\n") ++
    chars ("      --bg1: #0f66b3;\n") ++
    chars ("      --bg2: #0a3d8a;\n") ++
    chars ("      --accent: #f7d9d9;\n") ++
    chars ("      --desc-bg: rgba(0,0,0,0.12);\n") ++
    chars ("      --effect-green: #39ff7a;\n") ++
    chars ("      font-family: \"Segoe UI\", Roboto, Arial, sans-serif;\n") ++
    chars ("    \x7d\n") ++
    chars ("    body \x7b\n") ++
    chars ("      margin:0;\n") ++
    chars ("      background: transparent;\n") ++
    chars ("      -webkit-font-smoothing:antialiased;\n") ++
    chars ("    \x7d\n") ++
    chars ("    .outer \x7b\n") ++
    chars ("      width:100%;\n") ++
    chars ("      display:flex;\n") ++
    chars ("      justify-content:center;\n") ++
    chars ("      padding:8px 14px;\n") ++
    chars ("    \x7d\n") ++
    chars ("    .card \x7b\n") ++
    chars ("      width:920px;\n") ++
    chars ("      border-radius:18px;\n") ++
    chars ("      padding:18px;\n") ++
    chars ("      color:#eaf6ff;\n") ++
    chars ("      position:relative;\n") ++
    chars ("      overflow:visible;\n") ++
    chars ("      box-sizing:border-box;\n") ++
    chars ("    \x7d\n") ++
    chars ("    .card-inner \x7b\n") ++
    chars ("      background: linear-gradient(180deg, var(--bg1) 0%, var(--bg2) 100%);\n") ++
    chars ("      border-radius:14px;\n") ++
    chars ("      padding:12px;\n") ++
    chars ("      box-sizing:border-box;\n") ++
    chars ("    \x7d\n") ++
    chars ("    .row \x7b display:flex; gap:18px; align-items:flex-start; \x7d\n") ++
    chars ("    .icon-col \x7b\n") ++
    chars ("      width:128px;\n") ++
    chars ("      flex:0 0 128px;\n") ++
    chars ("      text-align:center;\n") ++
    chars ("    \x7d\n") ++
    chars ("    .meta-col \x7b flex:1; position:relative; min-width:0; \x7d\n") ++
    chars ("    .title \x7b\n") ++
    chars ("      font-size:22px;\n") ++
    chars ("      font-weight:800;\n") ++
    chars ("      margin-bottom:6px;\n") ++
    chars ("      color:#eaf6ff;\n") ++
    chars ("    \x7d\n") ++
    chars ("    .top-meta \x7b\n") ++
    chars ("      position:absolute;\n") ++
    chars ("      right:0;\n") ++
    chars ("      top:0;\n") ++
    chars ("      text-align:right;\n") ++
    chars ("      font-size:13px;\n") ++
    chars ("      color:#e6f6ff;\n") ++
    chars ("    \x7d\n") ++
    chars ("    .meta-line \x7b margin-bottom:6px; \x7d\n") ++
    chars ("    .desc-box \x7b\n") ++
    chars ("      margin-top:64px;\n") ++
    chars ("      background: var(--desc-bg);\n") ++
    chars ("      padding:16px 20px;\n") ++
    chars ("      border-radius:12px;\n") ++
    chars ("      width:72%;\n") ++
    chars ("      box-sizing: border-box;\n") ++
    chars ("    \x7d\n") ++
    chars ("    .desc-label \x7b\n") ++
    chars ("      font-weight:800;\n") ++
    chars ("      margin-bottom:6px;\n") ++
    chars ("      font-size:14px;\n") ++
    chars ("    \x7d\n") ++
    chars ("    .desc-text \x7b\n") ++
    chars ("      color:#e8f9ff;\n") ++
    chars ("      line-height:1.4;\n") ++
    chars ("      font-size:13px;\n") ++
    chars ("      padding-right:4px;\n") ++
    chars ("      word-break: break-word;\n") ++
    chars ("    \x7d\n") ++
    chars ("    .type-rank \x7b\n") ++
    chars ("      margin-top:6px;\n") ++
    chars ("      font-size:13px;\n") ++
    chars ("      color:#eaf6ff;\n") ++
    chars ("    \x7d\n") ++
    chars ("    .effect \x7b\n") ++
    chars ("      margin-top:10px;\n") ++
    chars ("      color: var(--effect-green);\n") ++
    chars ("      font-weight:800;\n") ++
    chars ("    \x7d\n") ++
    chars ("    @media (max-width:980px) \x7b\n") ++
    chars ("      .card \x7b width:100%; padding:14px; \x7d\n") ++
    chars ("      .desc-box \x7b width:100%; margin-top:12px; \x7d\n") ++
    chars ("      .top-meta \x7b\n") ++
    chars ("        position:static;\n") ++
    chars ("        text-align:left;\n") ++
    chars ("        margin-top:6px;\n") ++
    chars ("      \x7d\n") ++
    chars ("    \x7d\n") ++
    chars ("    .card-inner.") ++
    card_cls ++
    chars (" \x7b ") ++
    card_css_inline ++
    chars (" \x7d\n") ++
    chars ("    .") ++
    img_cls ++
    chars (" \x7b ") ++
    img_css_inline ++
    chars (" \x7d\n") ++
    chars ("    ") ++
    card_extra ++
    chars ("\n") ++
    chars ("    ") ++
    img_extra ++
    chars ("\n") ++
    chars ("  </style>\n") ++
    chars ("</head>\n") ++
    chars ("<body>\n") ++
    chars ("  <div class=\"outer\">\n") ++
    chars ("    <div class=\"card\">\n") ++
    chars ("      <div class=\"card-inner ") ++
    card_cls ++
    chars ("\">\n") ++
    chars ("        <div class=\"row\">\n") ++
    chars ("          <div class=\"icon-col\" style=\"display:flex;flex-direction:column;align-items:center;\">\n") ++
    chars ("            <div class=\"") ++
    img_cls ++
    chars ("\" style=\"display:inline-block;padding:6px;border-radius:10px; box-sizing:border-box;\">\n") ++
    chars ("              <div style=\"width:96px;height:96px;display:flex;align-items:center;justify-content:center;\">\n") ++
    chars ("                ")

/-- The part of the same document template that follows the icon block. -/
def skillDocAfter (usos_esc tipo_esc rank_esc title_esc alcance_esc duracao_esc tempo_uso_esc acao_esc area_esc descricao_esc efeito_esc : List Char) : List Char :=
  chars ("\n") ++
    chars ("              </div>\n") ++
    chars ("            </div>\n") ++
    chars ("\n") ++
    chars ("            <div style=\"height:8px;\"></div>\n") ++
    chars ("            <div style=\"font-weight:700; font-size:13px;color:#eaf6ff;margin-top:8px\">\n") ++
    chars ("              ") ++
    usos_esc ++
    chars ("\n") ++
    chars ("            </div>\n") ++
    chars ("            <div class=\"type-rank\">") ++
    tipo_esc ++
    chars ("</div>\n") ++
    chars ("            <div class=\"type-rank\">[RANK ") ++
    rank_esc ++
    chars ("]</div>\n") ++
    chars ("          </div>\n") ++
    chars ("\n") ++
    chars ("          <div class=\"meta-col\">\n") ++
    chars ("            <div class=\"title\">&lt;") ++
    title_esc ++
    chars ("&gt;</div>\n") ++
    chars ("\n") ++
    chars ("            <div class=\"top-meta\">\n") ++
    chars ("              <div class=\"meta-line\">[ALCANCE: <strong>") ++
    alcance_esc ++
    chars ("</strong>]</div>\n") ++
    chars ("              <div class=\"meta-line\">[DURAÇÃO: <strong>") ++
    duracao_esc ++
    chars ("</strong>]</div>\n") ++
    chars ("              <div class=\"meta-line\">[TEMPO DE USO: <strong>") ++
    tempo_uso_esc ++
    chars ("</strong>]</div>\n") ++
    chars ("              <div class=\"meta-line\">[AÇÃO: <strong>") ++
    acao_esc ++
    chars ("</strong>]</div>\n") ++
    chars ("              <div class=\"meta-line\">[ÁREA: <strong>") ++
    area_esc ++
    chars ("</strong>]</div>\n") ++
    chars ("            </div>\n") ++
    chars ("\n") ++
    chars ("            <div class=\"desc-box\">\n") ++
    chars ("              <div class=\"desc-label\">DESCRIÇÃO:</div>\n") ++
    chars ("              <div class=\"desc-text\">") ++
    descricao_esc ++
    chars ("</div>\n") ++
    chars ("            </div>\n") ++
    chars ("\n") ++
    chars ("            <div class=\"effect\">") ++
    efeito_esc ++
    chars ("</div>\n") ++
    chars ("          </div>\n") ++
    chars ("        </div>\n") ++
    chars ("      </div>\n") ++
    chars ("    </div>\n") ++
    chars ("  </div>\n") ++
    chars ("</body>\n") ++
    chars ("    </html>\n")

/-- The placeholder ICON block of the item render (item_popup.py lines
820-830, used both when no blob is present and when embedding fails). -/
def itemIconPlaceholder : List Char :=
  chars ("<div style=\"width:160px;height:160px;border-radius:6px;") ++
  chars ("background:rgba(0,0,0,0.25);display:flex;align-items:center;") ++
  chars ("justify-content:center;color:#dff4ff;\">ICON</div>")

/-- The placeholder ICON block of the skill render (skill_popup.py lines
799-809). -/
def skillIconPlaceholder : List Char :=
  chars ("<div style=\"width:96px;height:96px;border-radius:6px;") ++
  chars ("background:rgba(0,0,0,0.2);display:flex;align-items:center;") ++
  chars ("justify-content:center;color:#dff4ff;\">ICON</div>")

/-- Model of the icon resolution of `_render_item_template_popup`
(item_popup.py lines 803-830).  The fallible base64 step (the body of the
`try`) is a parameter `encode`; its `Except.error` outcome models any
exception raised while encoding, which the source catches and replaces with
the placeholder block.  A missing/empty blob also yields the placeholder. -/
def item_icon_html_inner (encode : List Nat → Except (List Char) (List Char))
    (icon_blob : List Nat) (icon_filename : List Char) : List Char :=
  if icon_blob ≠ [] then
    match encode icon_blob with
    | Except.ok b64 =>
      chars ("<img src=\"data:") ++ mime_for_filename icon_filename ++ chars (";base64,") ++ b64 ++
      chars ("\" style=\"width:160px;height:160px;object-fit:cover;border-radius:6px;display:block\" />")
    | Except.error _ => itemIconPlaceholder
  else itemIconPlaceholder

/-- Model of the icon resolution of `_render_skill_template_popup`
(skill_popup.py lines 782-809), as for the item variant. -/
def skill_icon_html_inner (encode : List Nat → Except (List Char) (List Char))
    (icon_blob : List Nat) (icon_filename : List Char) : List Char :=
  if icon_blob ≠ [] then
    match encode icon_blob with
    | Except.ok b64 =>
      chars ("<img src=\"data:") ++ mime_for_filename icon_filename ++ chars (";base64,") ++ b64 ++
      chars ("\" style=\"width:96px;height:96px;object-fit:cover;border-radius:6px;display:block\" />")
    | Except.error _ => skillIconPlaceholder
  else skillIconPlaceholder

/-- Model of `_render_item_template_popup` (item_popup.py lines 762-1047):
resolves every display field from the row with its fallback, compiles both
border specs, escapes the long-text fields, assembles the document and
computes the display height.  Returns the document and the height exactly as
handed to the external renderer.  Speeds are taken from the typed row
directly (the source's `float(... or 1.0)` re-parse of the stored REAL). -/
def render_item_template_popup (encode : List Nat → Except (List Char) (List Char))
    (row : PopupRow ItemFields) (item_name item_desc : List Char) (character_id : Int) :
    List Char × Nat :=
  let f := row.fields
  let title := if f.title = [] then item_name else f.title
  let icon_filename := stripC f.icon_filename
  let card_border_type := if f.card_border_type = [] then chars ("none") else f.card_border_type
  let card_border_color1 := if f.card_border_color1 = [] then chars ("#ffffff") else f.card_border_color1
  let card_border_color2 := if f.card_border_color2 = [] then chars ("#000000") else f.card_border_color2
  let image_border_type := if f.image_border_type = [] then chars ("none") else f.image_border_type
  let image_border_color1 := if f.image_border_color1 = [] then chars ("#ffffff") else f.image_border_color1
  let image_border_color2 := if f.image_border_color2 = [] then chars ("#000000") else f.image_border_color2
  let uid := natToChars row.id ++ chars ("_") ++ intToChars character_id
  let icon_html_inner := item_icon_html_inner encode f.icon_blob icon_filename
  let ccc := item_css_for_border (chars ("card")) card_border_type card_border_color1
    card_border_color2 f.card_border_speed uid
  let icc := item_css_for_border (chars ("img")) image_border_type image_border_color1
    image_border_color2 f.image_border_speed uid
  let desc_esc := esc_lines (if f.descricao = [] then item_desc else f.descricao)
  let efeito_esc := esc_lines f.efeito_passivo
  let bonus_esc := esc_lines f.bonus_equipamento
  let html :=
    itemDocBefore ccc.2.2 ccc.1 icc.2.2 icc.1 ccc.2.1 icc.2.1 ++ icon_html_inner ++
    itemDocAfter (htmlEscape title) (htmlEscape f.rank) (htmlEscape f.classificacao)
      (htmlEscape f.tipo) (htmlEscape f.usos) (htmlEscape f.requisitos)
      efeito_esc bonus_esc desc_esc
  (html, itemApproxHeight f.descricao item_desc f.efeito_passivo f.bonus_equipamento)

/-- Model of `_render_skill_template_popup` (skill_popup.py lines 741-1015),
analogous to the item variant; the description escape falls back to the
catalog `skill_desc` when the template description is empty. -/
def render_skill_template_popup (encode : List Nat → Except (List Char) (List Char))
    (row : PopupRow SkillFields) (skill_name skill_desc : List Char) (character_id : Int) :
    List Char × Nat :=
  let f := row.fields
  let title := if f.title = [] then skill_name else f.title
  let icon_filename := stripC f.icon_filename
  let card_border_type := if f.card_border_type = [] then chars ("none") else f.card_border_type
  let card_border_color1 := if f.card_border_color1 = [] then chars ("#ffffff") else f.card_border_color1
  let card_border_color2 := if f.card_border_color2 = [] then chars ("#000000") else f.card_border_color2
  let image_border_type := if f.image_border_type = [] then chars ("none") else f.image_border_type
  let image_border_color1 := if f.image_border_color1 = [] then chars ("#ffffff") else f.image_border_color1
  let image_border_color2 := if f.image_border_color2 = [] then chars ("#000000") else f.image_border_color2
  let uid := natToChars row.id ++ chars ("_") ++ intToChars character_id
  let icon_html_inner := skill_icon_html_inner encode f.icon_blob icon_filename
  let ccc := skill_css_for_border (chars ("card")) card_border_type card_border_color1
    card_border_color2 f.card_border_speed uid
  let icc := skill_css_for_border (chars ("img")) image_border_type image_border_color1
    image_border_color2 f.image_border_speed uid
  let descricao_esc0 := skillEscField f.descricao
  let descricao_esc :=
    if descricao_esc0 = [] ∧ skill_desc ≠ [] then replaceNlBr (htmlEscape skill_desc)
    else descricao_esc0
  let efeito_esc := skillEscField f.efeito_bonus
  let html :=
    skillDocBefore ccc.2.2 ccc.1 icc.2.2 icc.1 ccc.2.1 icc.2.1 ++ icon_html_inner ++
    skillDocAfter (htmlEscape f.usos) (htmlEscape f.tipo) (htmlEscape f.rank)
      (htmlEscape title) (htmlEscape f.alcance) (htmlEscape f.duracao)
      (htmlEscape f.tempo_uso) (htmlEscape f.acao) (htmlEscape f.area)
      descricao_esc efeito_esc
  (html, skillApproxHeight f.descricao f.efeito_bonus card_border_type image_border_type f.icon_blob)

/-- A concrete item-popup field record used to instantiate theorems. -/
def sampleItemFields : ItemFields :=
  ⟨chars ("T"), chars ("icon.png"), [7], chars ("A"), chars (""), chars (""), chars (""),
   chars (""), chars (""), chars (""), chars ("d"), chars ("none"), chars ("#ffffff"),
   chars ("#000000"), 1, chars ("none"), chars ("#ffffff"), chars ("#000000"), 1⟩

/-- A concrete item-popup row used to instantiate theorems. -/
def sampleItemRow : PopupRow ItemFields :=
  ⟨3, some 9, some 1, some 2, sampleItemFields, "t0", "t0"⟩

/-- A concrete skill-popup field record used to instantiate theorems. -/
def sampleSkillFields : SkillFields :=
  ⟨chars ("T"), chars ("icon.png"), [7], chars (""), chars (""), chars (""), chars (""),
   chars (""), chars (""), chars (""), chars (""), chars ("d"), chars (""), chars ("none"),
   chars ("#ffffff"), chars ("#000000"), 1, chars ("none"), chars ("#ffffff"),
   chars ("#000000"), 1⟩

/-- A concrete skill-popup row used to instantiate theorems. -/
def sampleSkillRow : PopupRow SkillFields :=
  ⟨5, some 9, some 1, some 2, sampleSkillFields, "t0", "t0"⟩

/-- An encoder that fails on every blob (a base64 step that always raises),
used to instantiate the icon-resilience theorem. -/
def failEncode : List Nat → Except (List Char) (List Char) :=
  fun _ => Except.error (chars ("err"))

/-! Helper lemmas. -/

theorem find?_pred_false {α : Type} (l : List α) : l.find? (fun _ => false) = none := by
  induction l with
  | nil => rfl
  | cons a l ih => simp [List.find?, ih]

theorem isSuffixOf_getLast? {s l : List Char} (h : s.isSuffixOf l = true) (hs : s ≠ []) :
    l.getLast? = s.getLast? := by
  obtain ⟨t, rfl⟩ := List.isSuffixOf_iff_suffix.mp h
  rw [List.getLast?_append]
  have : s.getLast? ≠ none := fun hn => hs (List.getLast?_eq_none_iff.mp hn)
  obtain ⟨x, hx⟩ := Option.ne_none_iff_exists'.mp this
  rw [hx]
  rfl

theorem specTextLines_mono_countNl {a b : List Char} (h : specTextLines a ≤ specTextLines b) :
    countNl a ≤ countNl b := by
  rcases eq_or_ne a [] with ha | ha
  · subst ha; simp [countNl]
  · rcases eq_or_ne b [] with hb | hb
    · subst hb; simp [specTextLines, ha] at h
    · simp [specTextLines, ha, hb] at h; omega

theorem itemApproxHeight_mono {dA dB idesc efA efB bnA bnB : List Char}
    (hd : specTextLines (if dA = [] then idesc else dA) ≤
          specTextLines (if dB = [] then idesc else dB))
    (he : specTextLines efA ≤ specTextLines efB)
    (hb : specTextLines bnA ≤ specTextLines bnB) :
    itemApproxHeight dA idesc efA bnA ≤ itemApproxHeight dB idesc efB bnB := by
  have h1 := specTextLines_mono_countNl hd
  have h2 := specTextLines_mono_countNl he
  have h3 := specTextLines_mono_countNl hb
  simp only [itemApproxHeight]
  apply max_le_max le_rfl
  apply min_le_min _ le_rfl
  omega

theorem skillApproxHeight_mono {dA dB efA efB cbt ibt : List Char} {blob : List Nat}
    (hd : specTextLines dA ≤ specTextLines dB)
    (he : specTextLines efA ≤ specTextLines efB) :
    skillApproxHeight dA efA cbt ibt blob ≤ skillApproxHeight dB efB cbt ibt blob := by
  have hd' := hd
  have he' := he
  simp only [skillApproxHeight]
  apply min_le_min _ le_rfl
  apply max_le_max _ le_rfl
  rcases eq_or_ne dA [] with ha | ha <;> rcases eq_or_ne dB [] with hb | hb <;>
    rcases eq_or_ne efA [] with hc | hc <;> rcases eq_or_ne efB [] with hd2 | hd2 <;>
    simp [specTextLines, ha, hb, hc, hd2] at hd' he' ⊢ <;>
    split_ifs <;> omega

theorem itemApproxHeight_bounds (d idesc ef bn : List Char) :
    820 ≤ itemApproxHeight d idesc ef bn ∧ itemApproxHeight d idesc ef bn ≤ 1400 := by
  simp only [itemApproxHeight]
  exact ⟨le_max_left _ _, max_le (by norm_num) (min_le_right _ _)⟩

theorem skillApproxHeight_bounds (d ef cbt ibt : List Char) (blob : List Nat) :
    500 ≤ skillApproxHeight d ef cbt ibt blob ∧ skillApproxHeight d ef cbt ibt blob ≤ 2000 := by
  simp only [skillApproxHeight]
  exact ⟨le_min (le_max_right _ _) (by norm_num), min_le_right _ _⟩

theorem borderDur_props (base : ℚ) (hbase : 0 < base) (s : ℚ) (hs : 0 < s) :
    (6/10 : ℚ) ≤ borderDur base s ∧ borderDur base (2 * s) ≤ borderDur base s ∧
      ((1/10 : ℚ) ≤ s → (6/10 : ℚ) < borderDur base s →
        borderDur base (2 * s) < borderDur base s) := by
  have h01 : (0:ℚ) < 1/10 := by norm_num
  have hden : (0:ℚ) < max (1/10) s := lt_max_of_lt_left h01
  have hmono : max (1/10 : ℚ) s ≤ max (1/10) (2*s) := max_le_max le_rfl (by linarith)
  have hdivle : base / max (1/10) (2*s) ≤ base / max (1/10) s :=
    div_le_div_of_nonneg_left hbase.le hden hmono
  refine ⟨le_max_left _ _, max_le_max le_rfl hdivle, ?_⟩
  intro h1 h2
  have hmaxs : max (1/10 : ℚ) s = s := max_eq_right h1
  have hmax2 : max (1/10 : ℚ) (2*s) = 2*s := max_eq_right (by linarith)
  unfold borderDur at h2 ⊢
  rw [hmaxs] at h2 ⊢
  rw [hmax2]
  have hx : (6/10 : ℚ) < base / s := by
    rcases lt_max_iff.mp h2 with h | h
    · exact absurd h (lt_irrefl _)
    · exact h
  have hlt : base / (2*s) < base / s := div_lt_div_of_pos_left hbase hs (by linarith)
  rw [max_eq_right hx.le]
  exact max_lt hx hlt

/-! Claim theorems. -/

/-- C3: the item-variant `get_popup_for` tries the fallback key variants in
the exact order (item, user) under SQL `=`, then (item, NULL), then
(NULL, user), then (NULL, NULL), returning the first match; the
skill-variant `get_popup_for` performs only the exact match, so any row it
returns carries exactly the requested key and there is no fallback. -/
theorem c3_lookup_fallback_order :
    (∀ (rows : List (PopupRow ItemFields)) (item_id user_id : Option Int),
        itemGetPopupFor rows item_id user_id = specItemFallbackLookup rows item_id user_id) ∧
    (∀ (rows : List (PopupRow SkillFields)) (skill_id user_id : Option Int)
        (r : PopupRow SkillFields),
        skillGetPopupFor rows skill_id user_id = some r →
        r.target_a = skill_id ∧ r.target_user_id = user_id) := by
  constructor
  · intro rows item_id user_id
    rcases item_id with _ | i <;> rcases user_id with _ | u <;>
      simp [itemGetPopupFor, specItemFallbackLookup, sqlEq, find?_pred_false]
  · intro rows sid uid r h
    unfold skillGetPopupFor at h
    split_ifs at h
    have hp := List.find?_some h
    simp only [Bool.and_eq_true, beq_iff_eq] at hp
    exact hp

/-- Witness for C3: the skill lookup at a concrete store returns the row
with exactly the requested key. -/
theorem c3_lookup_fallback_order_witness :
    skillGetPopupFor [sampleSkillRow] (some 1) (some 2) = some sampleSkillRow ∧
    (sampleSkillRow.target_a = some 1 ∧ sampleSkillRow.target_user_id = some 2) :=
  ⟨by decide, c3_lookup_fallback_order.2 [sampleSkillRow] (some 1) (some 2) sampleSkillRow (by decide)⟩

/-- C4 (counterexample): at speed 10 the `flow` duration is already clamped
to the 0.6 s floor, so the duration at the doubled speed 20 is equal, not
strictly smaller — the claimed strict decrease fails for this positive
speed. -/
theorem c4_counterexample_flow :
    anim_duration (chars ("flow")) 10 = some (3/5) ∧
    anim_duration (chars ("flow")) (2 * 10) = some (3/5) ∧
    ¬ ((3/5 : ℚ) < 3/5) := by
  have h1 : anim_duration (chars ("flow")) 10 = some (borderDur 4 10) := rfl
  have h2 : anim_duration (chars ("flow")) (2 * 10) = some (borderDur 4 (2 * 10)) := rfl
  refine ⟨?_, ?_, lt_irrefl _⟩
  · rw [h1]; norm_num [borderDur, max_def]
  · rw [h2]; norm_num [borderDur, max_def]

/-- C4 (amended): for the `flow`/`pulse`/`changing` border types and any
positive speed, the computed duration is at least the 0.6 s floor and never
increases when the speed is doubled; it strictly decreases whenever the
speed is at least the 0.1 clamp floor and the duration at the original
speed is still above the 0.6 s minimum. -/
theorem c4_amended_duration (btype : List Char) (speed : ℚ)
    (hpos : 0 < speed)
    (hb : btype = chars ("flow") ∨ btype = chars ("pulse") ∨ btype = chars ("changing")) :
    ∃ d d2 : ℚ, anim_duration btype speed = some d ∧
      anim_duration btype (2 * speed) = some d2 ∧
      (6/10 : ℚ) ≤ d ∧ d2 ≤ d ∧
      ((1/10 : ℚ) ≤ speed → (6/10 : ℚ) < d → d2 < d) := by
  rcases hb with h | h | h <;> subst h
  · obtain ⟨ha, hb2, hc⟩ := borderDur_props 4 (by norm_num) speed hpos
    exact ⟨borderDur 4 speed, borderDur 4 (2 * speed), rfl, rfl, ha, hb2, hc⟩
  · obtain ⟨ha, hb2, hc⟩ := borderDur_props 2 (by norm_num) speed hpos
    exact ⟨borderDur 2 speed, borderDur 2 (2 * speed), rfl, rfl, ha, hb2, hc⟩
  · obtain ⟨ha, hb2, hc⟩ := borderDur_props 3 (by norm_num) speed hpos
    exact ⟨borderDur 3 speed, borderDur 3 (2 * speed), rfl, rfl, ha, hb2, hc⟩

/-- Witness for C4 (amended) at the `pulse` type and speed 2. -/
theorem c4_amended_duration_witness :
    ((0:ℚ) < 2 ∧
      (chars ("pulse") = chars ("flow") ∨ chars ("pulse") = chars ("pulse") ∨
        chars ("pulse") = chars ("changing"))) ∧
    (∃ d d2 : ℚ, anim_duration (chars ("pulse")) 2 = some d ∧
      anim_duration (chars ("pulse")) (2 * 2) = some d2 ∧
      (6/10 : ℚ) ≤ d ∧ d2 ≤ d ∧
      ((1/10 : ℚ) ≤ (2:ℚ) → (6/10 : ℚ) < d → d2 < d)) :=
  ⟨⟨by norm_num, Or.inr (Or.inl rfl)⟩,
   c4_amended_duration (chars ("pulse")) 2 (by norm_num) (Or.inr (Or.inl rfl))⟩

/-- C6 (counterexample): with a 4-line catalog fallback description, a
template whose description field is "x" has strictly more text lines across
its long-text fields (1 against 0) than one whose fields are all empty, yet
its suggested item height is 828 against 882 — the claimed monotonicity
fails because an empty description makes the height count the fallback
text's lines. -/
theorem c6_counterexample_item :
    specTextLines (chars ("")) + specTextLines (chars ("")) + specTextLines (chars ("")) <
      specTextLines (chars ("x")) + specTextLines (chars ("")) + specTextLines (chars ("")) ∧
    itemApproxHeight (chars ("x")) (chars ("1\n2\n3\n4")) (chars ("")) (chars ("")) <
      itemApproxHeight (chars ("")) (chars ("1\n2\n3\n4")) (chars ("")) (chars ("")) := by
  constructor
  · decide
  · decide

/-- C6 (amended): comparing the long-text fields as the height heuristic
uses them (item: the description after catalog fallback; skill: the
template's own fields), a template whose fields each have at least as many
text lines gets at least as large a suggested height, borders and icon
presence being equal; and every suggested height lies within the family
bounds — [820, 1400] for items, [500, 2000] for skills. -/
theorem c6_amended_height :
    (∀ dA dB idesc efA efB bnA bnB : List Char,
        specTextLines (if dA = [] then idesc else dA) ≤
          specTextLines (if dB = [] then idesc else dB) →
        specTextLines efA ≤ specTextLines efB →
        specTextLines bnA ≤ specTextLines bnB →
        itemApproxHeight dA idesc efA bnA ≤ itemApproxHeight dB idesc efB bnB) ∧
    (∀ d idesc ef bn : List Char,
        820 ≤ itemApproxHeight d idesc ef bn ∧ itemApproxHeight d idesc ef bn ≤ 1400) ∧
    (∀ dA dB efA efB cbt ibt : List Char, ∀ blob : List Nat,
        specTextLines dA ≤ specTextLines dB →
        specTextLines efA ≤ specTextLines efB →
        skillApproxHeight dA efA cbt ibt blob ≤ skillApproxHeight dB efB cbt ibt blob) ∧
    (∀ d ef cbt ibt : List Char, ∀ blob : List Nat,
        500 ≤ skillApproxHeight d ef cbt ibt blob ∧ skillApproxHeight d ef cbt ibt blob ≤ 2000) := by
  refine ⟨?_, ?_, ?_, ?_⟩
  · intro dA dB idesc efA efB bnA bnB hd he hb
    exact itemApproxHeight_mono hd he hb
  · intro d idesc ef bn
    exact itemApproxHeight_bounds d idesc ef bn
  · intro dA dB efA efB cbt ibt blob hd he
    exact skillApproxHeight_mono hd he
  · intro d ef cbt ibt blob
    exact skillApproxHeight_bounds d ef cbt ibt blob

/-- Witness for C6 (amended) at concrete field values. -/
theorem c6_amended_height_witness :
    (specTextLines (if chars ("a") = [] then chars ("z") else chars ("a")) ≤
       specTextLines (if chars ("a\nb") = [] then chars ("z") else chars ("a\nb")) ∧
     specTextLines (chars ("")) ≤ specTextLines (chars ("e")) ∧
     specTextLines (chars ("")) ≤ specTextLines (chars (""))) ∧
    itemApproxHeight (chars ("a")) (chars ("z")) (chars ("")) (chars ("")) ≤
      itemApproxHeight (chars ("a\nb")) (chars ("z")) (chars ("e")) (chars ("")) :=
  ⟨⟨by decide, by decide, by decide⟩,
   c6_amended_height.1 (chars ("a")) (chars ("a\nb")) (chars ("z")) (chars (""))
     (chars ("e")) (chars ("")) (chars ("")) (by decide) (by decide) (by decide)⟩

/-- C8: the embedded MIME type is selected case-insensitively from the
filename extension — `.jpg`/`.jpeg` give image/jpeg, `.gif` gives
image/gif, `.webp` gives image/webp (in particular `icon.WEBP`), and
anything else gives image/png. -/
theorem c8_mime_selection (fn : List Char) :
    (((chars (".jpg")).isSuffixOf (lowerAscii fn) = true ∨
      (chars (".jpeg")).isSuffixOf (lowerAscii fn) = true) →
       mime_for_filename fn = chars ("image/jpeg")) ∧
    ((chars (".gif")).isSuffixOf (lowerAscii fn) = true →
       mime_for_filename fn = chars ("image/gif")) ∧
    ((chars (".webp")).isSuffixOf (lowerAscii fn) = true →
       mime_for_filename fn = chars ("image/webp")) ∧
    (((chars (".jpg")).isSuffixOf (lowerAscii fn) = false ∧
      (chars (".jpeg")).isSuffixOf (lowerAscii fn) = false ∧
      (chars (".gif")).isSuffixOf (lowerAscii fn) = false ∧
      (chars (".webp")).isSuffixOf (lowerAscii fn) = false) →
       mime_for_filename fn = chars ("image/png")) ∧
    mime_for_filename (chars ("icon.WEBP")) = chars ("image/webp") := by
  refine ⟨?_, ?_, ?_, ?_, by decide⟩
  · intro h
    simp only [mime_for_filename]
    rw [if_pos]
    rcases h with h | h <;> simp [h]
  · intro h
    have hlast := isSuffixOf_getLast? h (by decide)
    have hjpg : (chars (".jpg")).isSuffixOf (lowerAscii fn) = false := by
      by_contra hh
      rw [Bool.not_eq_false] at hh
      have := isSuffixOf_getLast? hh (by decide)
      rw [hlast] at this
      simp [chars] at this
    have hjpeg : (chars (".jpeg")).isSuffixOf (lowerAscii fn) = false := by
      by_contra hh
      rw [Bool.not_eq_false] at hh
      have := isSuffixOf_getLast? hh (by decide)
      rw [hlast] at this
      simp [chars] at this
    simp [mime_for_filename, hjpg, hjpeg, h]
  · intro h
    have hlast := isSuffixOf_getLast? h (by decide)
    have hjpg : (chars (".jpg")).isSuffixOf (lowerAscii fn) = false := by
      by_contra hh
      rw [Bool.not_eq_false] at hh
      have := isSuffixOf_getLast? hh (by decide)
      rw [hlast] at this
      simp [chars] at this
    have hjpeg : (chars (".jpeg")).isSuffixOf (lowerAscii fn) = false := by
      by_contra hh
      rw [Bool.not_eq_false] at hh
      have := isSuffixOf_getLast? hh (by decide)
      rw [hlast] at this
      simp [chars] at this
    have hgif : (chars (".gif")).isSuffixOf (lowerAscii fn) = false := by
      by_contra hh
      rw [Bool.not_eq_false] at hh
      have := isSuffixOf_getLast? hh (by decide)
      rw [hlast] at this
      simp [chars] at this
    simp [mime_for_filename, hjpg, hjpeg, hgif, h]
  · intro ⟨h1, h2, h3, h4⟩
    simp [mime_for_filename, h1, h2, h3, h4]

/-- Witness for C8 on the concrete filename `a.GiF`. -/
theorem c8_mime_selection_witness :
    (chars (".gif")).isSuffixOf (lowerAscii (chars ("a.GiF"))) = true ∧
    mime_for_filename (chars ("a.GiF")) = chars ("image/gif") :=
  ⟨by decide, (c8_mime_selection (chars ("a.GiF"))).2.1 (by decide)⟩

/-- C9: `row_field` is total on its public interface — a missing row
(`None`), a mapping without the key, and a NULL value at the key all return
the supplied default; as a total function it raises no exception. -/
theorem c9_row_field_total {V : Type} (key : String) (default : V) :
    row_field (V := V) none key default = default ∧
    (∀ m : List (String × Option V), m.lookup key = none →
      row_field (some m) key default = default) ∧
    (∀ m : List (String × Option V), m.lookup key = some none →
      row_field (some m) key default = default) := by
  refine ⟨rfl, ?_, ?_⟩ <;> intro m h <;> simp [row_field, h]

/-- Witness for C9 at concrete rows. -/
theorem c9_row_field_total_witness :
    row_field (V := Nat) none ("hp") 7 = 7 ∧
    ([(("mp" : String), some 3)].lookup ("hp") = none ∧
      row_field (some [(("mp" : String), some 3)]) ("hp") 7 = 7) ∧
    ([(("hp" : String), (none : Option Nat))].lookup ("hp") = some none ∧
      row_field (some [(("hp" : String), (none : Option Nat))]) ("hp") 7 = 7) :=
  ⟨(c9_row_field_total ("hp") 7).1,
   ⟨by decide, (c9_row_field_total ("hp") 7).2.1 _ (by decide)⟩,
   ⟨by decide, (c9_row_field_total ("hp") 7).2.2 _ (by decide)⟩⟩

/-- C10: the skill-variant `get_popup_for` returns `None` whenever either
key part is `None`, for every store contents (the guard precedes the
query); consequently any row it ever returns has both key parts non-NULL,
so a stored template with a NULL key part is never returned by the viewer
read path. -/
theorem c10_skill_get_popup_guard :
    (∀ (rows : List (PopupRow SkillFields)) (skill_id user_id : Option Int),
        skill_id = none ∨ user_id = none → skillGetPopupFor rows skill_id user_id = none) ∧
    (∀ (rows : List (PopupRow SkillFields)) (skill_id user_id : Option Int)
        (r : PopupRow SkillFields),
        skillGetPopupFor rows skill_id user_id = some r →
        r.target_a ≠ none ∧ r.target_user_id ≠ none) := by
  constructor
  · intro rows sid uid h
    simp [skillGetPopupFor, h]
  · intro rows sid uid r h
    unfold skillGetPopupFor at h
    split_ifs at h with hcond
    push_neg at hcond
    have hp := List.find?_some h
    simp only [Bool.and_eq_true, beq_iff_eq] at hp
    rw [hp.1, hp.2]
    exact hcond

/-- Witness for C10: a `None` skill id yields `None` even though a matching
NULL-keyed row is stored; and a returned row has non-NULL key parts. -/
theorem c10_skill_get_popup_guard_witness :
    skillGetPopupFor [sampleSkillRow] none (some 2) = none ∧
    (sampleSkillRow.target_a ≠ none ∧ sampleSkillRow.target_user_id ≠ none) :=
  ⟨c10_skill_get_popup_guard.1 [sampleSkillRow] none (some 2) (Or.inl rfl),
   c10_skill_get_popup_guard.2 [sampleSkillRow] (some 1) (some 2) sampleSkillRow (by decide)⟩

/-- C2 step lemma: one upsert or delete preserves "at most one row per
natural key" (the update branch rewrites only non-key columns of the
matched id; the insert branch fires only when no IS-matching row exists). -/
theorem keyCount_applyOp_le {F : Type} (s : PopupStore F) (op : PopupOp F) (tA tU : Option Int)
    (h : keyCount s tA tU ≤ 1) : keyCount (applyOp s op) tA tU ≤ 1 := by
  unfold keyCount at h
  cases op with
  | delete pid =>
    unfold applyOp delete_popup keyCount
    rw [List.countP_filter]
    refine le_trans (List.countP_mono_left ?_) h
    intro x _ hx
    simp only [Bool.and_eq_true] at hx
    exact hx.1
  | upsert o a u f now =>
    unfold applyOp upsert_popup
    cases hfind : s.rows.find? (fun r => keyMatches r a u) with
    | some row =>
      unfold keyCount
      simp only [hfind]
      rw [List.countP_map]
      refine le_trans (le_of_eq (List.countP_congr ?_)) h
      intro x _
      by_cases hx : x.id = row.id <;> simp [Function.comp, hx, keyMatches]
    | none =>
      unfold keyCount
      simp only [hfind]
      rw [List.countP_append]
      by_cases hm : keyMatches (⟨s.nextId, o, a, u, f, now, now⟩ : PopupRow F) tA tU = true
      · have hk := hm
        simp only [keyMatches, Bool.and_eq_true, beq_iff_eq] at hk
        obtain ⟨h1, h2⟩ := hk
        have hz : s.rows.countP (fun r => keyMatches r tA tU) = 0 := by
          refine List.countP_eq_zero.mpr ?_
          intro r hr
          have hnone := List.find?_eq_none.mp hfind r hr
          rw [← h1, ← h2]
          exact hnone
        rw [hz]
        have hone : List.countP (fun r => keyMatches r tA tU)
            [(⟨s.nextId, o, a, u, f, now, now⟩ : PopupRow F)] ≤ 1 := by
          simp [List.countP_cons, hm]
        omega
      · have hz : List.countP (fun r => keyMatches r tA tU)
            [(⟨s.nextId, o, a, u, f, now, now⟩ : PopupRow F)] = 0 := by
          simp only [List.countP_cons, List.countP_nil]
          simp [Bool.eq_false_iff.mpr hm]
        rw [hz]
        omega

/-- C2: for every sequence of `upsert_popup`/`delete_popup` operations
starting from the empty store, at most one row IS-matches any natural key
(NULL key parts compare equal to NULL, as in the upsert's `IS` lookup), so
the store keeps at most one popup row per natural key. -/
theorem c2_at_most_one_per_key {F : Type} (ops : List (PopupOp F)) (tA tU : Option Int) :
    keyCount (applyOps (emptyStore F) ops) tA tU ≤ 1 := by
  suffices h : ∀ s : PopupStore F, keyCount s tA tU ≤ 1 →
      keyCount (applyOps s ops) tA tU ≤ 1 by
    exact h (emptyStore F) (by simp [emptyStore, keyCount])
  induction ops with
  | nil => intro s hs; exact hs
  | cons op ops ih =>
    intro s hs
    exact ih (applyOp s op) (keyCount_applyOp_le s op tA tU hs)

/-- C1: starting from a store with no row for the natural key `(tA, tU)`
(and rowids below the next AUTOINCREMENT value), two successive upserts for
that key leave exactly one matching row, whose owner and mutable fields come
from the second call, whose `created_at` is the first call's timestamp and
`updated_at` the second's; both calls return the same row id. -/
theorem c1_upsert_twice {F : Type} (s0 : PopupStore F)
    (o1 o2 tA tU : Option Int) (f1 f2 : F) (t1 t2 : String)
    (hkey : ∀ r ∈ s0.rows, keyMatches r tA tU = false)
    (hid : ∀ r ∈ s0.rows, r.id < s0.nextId) :
    (upsert_popup s0 o1 tA tU f1 t1).2 =
      (upsert_popup (upsert_popup s0 o1 tA tU f1 t1).1 o2 tA tU f2 t2).2 ∧
    ((upsert_popup (upsert_popup s0 o1 tA tU f1 t1).1 o2 tA tU f2 t2).1.rows.filter
        (fun r => keyMatches r tA tU)) =
      [⟨(upsert_popup s0 o1 tA tU f1 t1).2, o2, tA, tU, f2, t1, t2⟩] := by
  have hfind1 : s0.rows.find? (fun r => keyMatches r tA tU) = none :=
    List.find?_eq_none.mpr (fun x hx => by simp [hkey x hx])
  have hp1 : upsert_popup s0 o1 tA tU f1 t1 =
      (⟨s0.rows ++ [(⟨s0.nextId, o1, tA, tU, f1, t1, t1⟩ : PopupRow F)], s0.nextId + 1⟩,
        s0.nextId) := by
    unfold upsert_popup
    rw [hfind1]
  have hmatch : keyMatches (⟨s0.nextId, o1, tA, tU, f1, t1, t1⟩ : PopupRow F) tA tU = true := by
    simp [keyMatches]
  have hfind2 : List.find? (fun r => keyMatches r tA tU)
      (s0.rows ++ [(⟨s0.nextId, o1, tA, tU, f1, t1, t1⟩ : PopupRow F)]) =
      some (⟨s0.nextId, o1, tA, tU, f1, t1, t1⟩ : PopupRow F) := by
    rw [List.find?_append, hfind1]
    simp [List.find?_cons, hmatch]
  have hmap : List.map
      (fun r => if r.id = (⟨s0.nextId, o1, tA, tU, f1, t1, t1⟩ : PopupRow F).id then
        { r with owner_user_id := o2, fields := f2, updated_at := t2 } else r)
      (s0.rows ++ [(⟨s0.nextId, o1, tA, tU, f1, t1, t1⟩ : PopupRow F)]) =
      s0.rows ++ [(⟨s0.nextId, o2, tA, tU, f2, t1, t2⟩ : PopupRow F)] := by
    rw [List.map_append]
    congr 1
    · rw [List.map_congr_left (g := id) ?_, List.map_id]
      intro r hr
      have hlt := hid r hr
      simp only [id]
      rw [if_neg]
      omega
    · simp
  have hp2 : upsert_popup
      ((⟨s0.rows ++ [(⟨s0.nextId, o1, tA, tU, f1, t1, t1⟩ : PopupRow F)], s0.nextId + 1⟩ :
        PopupStore F)) o2 tA tU f2 t2 =
      (⟨s0.rows ++ [(⟨s0.nextId, o2, tA, tU, f2, t1, t2⟩ : PopupRow F)], s0.nextId + 1⟩,
        s0.nextId) := by
    unfold upsert_popup
    simp only [hfind2]
    rw [hmap]
  rw [hp1, hp2]
  have hnil : s0.rows.filter (fun r => keyMatches r tA tU) = [] :=
    List.filter_eq_nil_iff.mpr (fun a ha => by simp [hkey a ha])
  refine ⟨rfl, ?_⟩
  simp only [List.filter_append, hnil]
  simp [List.filter_cons, keyMatches]

/-- Witness for C1 from the empty store at a concrete key. -/
theorem c1_upsert_twice_witness :
    ((∀ r ∈ (emptyStore Unit).rows, keyMatches r (some 1) (some 2) = false) ∧
     (∀ r ∈ (emptyStore Unit).rows, r.id < (emptyStore Unit).nextId)) ∧
    ((upsert_popup (emptyStore Unit) (some 9) (some 1) (some 2) () ("t1")).2 =
      (upsert_popup (upsert_popup (emptyStore Unit) (some 9) (some 1) (some 2) () ("t1")).1
        (some 8) (some 1) (some 2) () ("t2")).2 ∧
     ((upsert_popup (upsert_popup (emptyStore Unit) (some 9) (some 1) (some 2) () ("t1")).1
        (some 8) (some 1) (some 2) () ("t2")).1.rows.filter
          (fun r => keyMatches r (some 1) (some 2))) =
       [⟨(upsert_popup (emptyStore Unit) (some 9) (some 1) (some 2) () ("t1")).2,
         some 8, some 1, some 2, (), "t1", "t2"⟩]) :=
  ⟨⟨by simp [emptyStore], by simp [emptyStore]⟩,
   c1_upsert_twice (emptyStore Unit) (some 9) (some 8) (some 1) (some 2) () () ("t1") ("t2")
     (by simp [emptyStore]) (by simp [emptyStore])⟩

theorem splitlinesC_cons_nonbreak (c : Char) (rest : List Char) (h : isLineBreak c = false) :
    splitlinesC (c :: rest) =
      match splitlinesC rest with
      | [] => [[c]]
      | l :: ls => (c :: l) :: ls := by
  have hc : c ≠ '\r' := by
    intro hr
    subst hr
    simp [isLineBreak] at h
  cases rest with
  | nil => simp [splitlinesC, h]
  | cons c2 rest2 =>
    simp only [splitlinesC]
    rw [if_neg (by rintro ⟨h1, _⟩; exact hc h1), if_neg (by simp [h])]

theorem splitlinesC_nl (t : List Char) : splitlinesC ('\n' :: t) = [] :: splitlinesC t := by
  cases t with
  | nil => simp [splitlinesC, isLineBreak]
  | cons c2 rest =>
    simp only [splitlinesC]
    rw [if_neg (by rintro ⟨h1, _⟩; exact absurd h1 (by decide)), if_pos (by decide)]

theorem splitlinesC_single (l : List Char) (h0 : l ≠ [])
    (h : ∀ c ∈ l, isLineBreak c = false) : splitlinesC l = [l] := by
  induction l with
  | nil => exact absurd rfl h0
  | cons c rest ih =>
    rw [splitlinesC_cons_nonbreak c rest (h c (List.mem_cons_self c rest))]
    cases hr : rest with
    | nil => simp [splitlinesC]
    | cons c2 rest2 =>
      rw [← hr, ih (by simp [hr]) (fun x hx => h x (List.mem_cons_of_mem c hx))]

theorem splitlinesC_line_append (l t : List Char)
    (hl : ∀ c ∈ l, isLineBreak c = false) :
    splitlinesC (l ++ '\n' :: t) = l :: splitlinesC t := by
  induction l with
  | nil => simpa using splitlinesC_nl t
  | cons c rest ih =>
    rw [List.cons_append,
      splitlinesC_cons_nonbreak c _ (hl c (List.mem_cons_self c rest)),
      ih (fun x hx => hl x (List.mem_cons_of_mem c hx))]

theorem intercalate_nil_br (sep : List Char) : List.intercalate sep [] = [] := by
  simp [List.intercalate]

theorem intercalate_single (sep l : List Char) : List.intercalate sep [l] = l := by
  simp [List.intercalate]

theorem intercalate_cons2 (sep l l' : List Char) (ls : List (List Char)) :
    List.intercalate sep (l :: l' :: ls) = l ++ sep ++ List.intercalate sep (l' :: ls) := by
  simp [List.intercalate, List.intersperse]

theorem splitlines_intercalate (ls : List (List Char))
    (h1 : ∀ l ∈ ls, ∀ c ∈ l, isLineBreak c = false)
    (h2 : ls ≠ []) (h3 : ls.getLast? ≠ some ([] : List Char)) :
    splitlinesC (List.intercalate [('\n' : Char)] ls) = ls := by
  induction ls with
  | nil => exact absurd rfl h2
  | cons l ls ih =>
    cases ls with
    | nil =>
      rw [intercalate_single]
      refine splitlinesC_single l ?_ (h1 l (List.mem_cons_self l []))
      intro hnil
      exact h3 (by simp [hnil])
    | cons l' ls' =>
      rw [intercalate_cons2]
      rw [List.append_assoc]
      simp only [List.singleton_append]
      rw [splitlinesC_line_append l _ (h1 l (List.mem_cons_self l _))]
      rw [ih (fun x hx => h1 x (List.mem_cons_of_mem l hx)) (by simp) (by simpa using h3)]


theorem escChar_not_lt (c : Char) : ('<' : Char) ∉ escChar c := by
  intro hmem
  unfold escChar at hmem
  split_ifs at hmem with h1 h2 h3 h4 h5
  · exact absurd hmem (by decide)
  · exact absurd hmem (by decide)
  · exact absurd hmem (by decide)
  · exact absurd hmem (by decide)
  · exact absurd hmem (by decide)
  · simp at hmem
    exact h2 hmem.symm

theorem escChar_nl : escChar '\n' = ['\n'] := by decide

theorem escChar_no_nl (c : Char) (hc : c ≠ '\n') : ('\n' : Char) ∉ escChar c := by
  intro hmem
  unfold escChar at hmem
  split_ifs at hmem with h1 h2 h3 h4 h5
  · exact absurd hmem (by decide)
  · exact absurd hmem (by decide)
  · exact absurd hmem (by decide)
  · exact absurd hmem (by decide)
  · exact absurd hmem (by decide)
  · simp at hmem
    exact hc hmem.symm

theorem escChar_lt_of_lt : escChar '<' = chars ("&lt;") := by decide
theorem escChar_amp : escChar '&' = chars ("&amp;") := by decide

theorem htmlEscape_append (a b : List Char) :
    htmlEscape (a ++ b) = htmlEscape a ++ htmlEscape b := by
  simp [htmlEscape]

theorem htmlEscape_cons (c : Char) (l : List Char) :
    htmlEscape (c :: l) = escChar c ++ htmlEscape l := by
  simp [htmlEscape]

theorem htmlEscape_infix_of_mem {c0 : Char} {l : List Char} (h : c0 ∈ l) :
    escChar c0 <:+: htmlEscape l := by
  obtain ⟨s, t, rfl⟩ := List.append_of_mem h
  refine ⟨htmlEscape s, htmlEscape t, ?_⟩
  rw [htmlEscape_append, htmlEscape_cons, List.append_assoc]

theorem htmlEscape_no_nl {l : List Char} (h : ∀ c ∈ l, c ≠ '\n') :
    ∀ c ∈ htmlEscape l, c ≠ '\n' := by
  intro c hc hnl
  subst hnl
  obtain ⟨a, ha, hin⟩ := List.mem_flatMap.mp hc
  exact escChar_no_nl a (h a ha) hin

theorem mem_intercalate_inv {c : Char} {sep : List Char} {ls : List (List Char)}
    (h : c ∈ List.intercalate sep ls) : c ∈ sep ∨ ∃ l ∈ ls, c ∈ l := by
  induction ls with
  | nil => simp [intercalate_nil_br] at h
  | cons l ls ih =>
    cases ls with
    | nil =>
      rw [intercalate_single] at h
      exact Or.inr ⟨l, List.mem_cons_self l [], h⟩
    | cons l' ls' =>
      rw [intercalate_cons2] at h
      rcases List.mem_append.mp h with h' | h'
      · rcases List.mem_append.mp h' with h'' | h''
        · exact Or.inr ⟨l, List.mem_cons_self l _, h''⟩
        · exact Or.inl h''
      · rcases ih h' with h'' | ⟨x, hx, hcx⟩
        · exact Or.inl h''
        · exact Or.inr ⟨x, List.mem_cons_of_mem l hx, hcx⟩

theorem infix_intercalate {l : List Char} {sep : List Char} {ls : List (List Char)}
    (h : l ∈ ls) : l <:+: List.intercalate sep ls := by
  induction ls with
  | nil => simp at h
  | cons l0 ls ih =>
    cases ls with
    | nil =>
      rw [List.mem_singleton] at h
      subst h
      rw [intercalate_single]
    | cons l' ls' =>
      rw [intercalate_cons2]
      rcases List.mem_cons.mp h with h' | h'
      · subst h'
        exact ⟨[], sep ++ List.intercalate sep (l' :: ls'), by simp⟩
      · refine (ih h').trans ?_
        exact ⟨l0 ++ sep, [], by simp⟩


theorem countNl_append (a b : List Char) : countNl (a ++ b) = countNl a + countNl b := by
  simp [countNl, List.countP_append]

theorem countNl_breakfree {l : List Char} (h : ∀ c ∈ l, isLineBreak c = false) :
    countNl l = 0 := by
  refine List.countP_eq_zero.mpr ?_
  intro c hc
  have := h c hc
  simp only [decide_eq_true_eq]
  intro heq
  subst heq
  simp [isLineBreak] at this

theorem countNl_intercalate (ls : List (List Char))
    (h1 : ∀ l ∈ ls, ∀ c ∈ l, isLineBreak c = false) (h2 : ls ≠ []) :
    countNl (List.intercalate [('\n' : Char)] ls) = ls.length - 1 := by
  induction ls with
  | nil => exact absurd rfl h2
  | cons l ls ih =>
    cases ls with
    | nil =>
      rw [intercalate_single, countNl_breakfree (h1 l (List.mem_cons_self l []))]
      rfl
    | cons l' ls' =>
      rw [intercalate_cons2, countNl_append, countNl_append]
      rw [countNl_breakfree (h1 l (List.mem_cons_self l _))]
      rw [ih (fun x hx => h1 x (List.mem_cons_of_mem l hx)) (by simp)]
      have : countNl [('\n' : Char)] = 1 := by decide
      rw [this]
      simp only [List.length_cons]
      omega


theorem replaceNlBr_append (a b : List Char) :
    replaceNlBr (a ++ b) = replaceNlBr a ++ replaceNlBr b := by
  simp [replaceNlBr]

theorem replaceNlBr_of_no_nl {l : List Char} (h : ∀ c ∈ l, c ≠ '\n') :
    replaceNlBr l = l := by
  induction l with
  | nil => rfl
  | cons c rest ih =>
    show (if c = '\n' then chars ("<br>") else [c]) ++ replaceNlBr rest = c :: rest
    rw [if_neg (h c (List.mem_cons_self c rest)),
      ih (fun x hx => h x (List.mem_cons_of_mem c hx))]
    rfl

theorem htmlEscape_intercalate_nl (ls : List (List Char)) :
    htmlEscape (List.intercalate [('\n' : Char)] ls) =
      List.intercalate [('\n' : Char)] (ls.map htmlEscape) := by
  induction ls with
  | nil => simp [intercalate_nil_br, htmlEscape]
  | cons l ls ih =>
    cases ls with
    | nil => simp [intercalate_single]
    | cons l' ls' =>
      rw [List.map_cons] at ih
      rw [intercalate_cons2, htmlEscape_append, htmlEscape_append, ih]
      rw [List.map_cons, List.map_cons, intercalate_cons2]
      rw [show htmlEscape [('\n' : Char)] = [('\n' : Char)] by decide]

theorem replaceNlBr_intercalate (ps : List (List Char))
    (h : ∀ p ∈ ps, ∀ c ∈ p, c ≠ '\n') :
    replaceNlBr (List.intercalate [('\n' : Char)] ps) =
      List.intercalate (chars ("<br>")) ps := by
  induction ps with
  | nil => simp [intercalate_nil_br, replaceNlBr]
  | cons p ps ih =>
    cases ps with
    | nil =>
      rw [intercalate_single, intercalate_single]
      exact replaceNlBr_of_no_nl (h p (List.mem_cons_self p []))
    | cons p' ps' =>
      rw [intercalate_cons2, intercalate_cons2]
      rw [replaceNlBr_append, replaceNlBr_append]
      rw [replaceNlBr_of_no_nl (h p (List.mem_cons_self p _))]
      rw [ih (fun x hx => h x (List.mem_cons_of_mem p hx))]
      rw [show replaceNlBr [('\n' : Char)] = chars ("<br>") by decide]

theorem intercalate_nl_ne_nil (ls : List (List Char)) (h2 : ls ≠ [])
    (h3 : ls.getLast? ≠ some ([] : List Char)) :
    List.intercalate [('\n' : Char)] ls ≠ [] := by
  cases ls with
  | nil => exact absurd rfl h2
  | cons l ls =>
    cases ls with
    | nil =>
      rw [intercalate_single]
      intro hnil
      exact h3 (by simp [hnil])
    | cons l' ls' =>
      rw [intercalate_cons2]
      simp

/-- C5: for a long-text value assembled from newline-separated,
boundary-free lines (the last one non-empty), the item render's `esc_lines`
yields exactly the HTML-escaped lines joined by `<br>` — so the escaped
forms `&lt;`/`&amp;` appear whenever the input contains `<`/`&`, no escaped
line contains a raw `<`, and the number of `<br>` separators equals the
number of input newlines — and the skill render's escape-then-replace
produces the same joined form. -/
theorem c5_escaping (ls : List (List Char))
    (h1 : ∀ l ∈ ls, ∀ c ∈ l, isLineBreak c = false)
    (h2 : ls ≠ [])
    (h3 : ls.getLast? ≠ some ([] : List Char)) :
    esc_lines (List.intercalate [('\n' : Char)] ls) =
      List.intercalate (chars ("<br>")) (ls.map htmlEscape) ∧
    (('<' : Char) ∈ List.intercalate [('\n' : Char)] ls →
      chars ("&lt;") <:+: esc_lines (List.intercalate [('\n' : Char)] ls)) ∧
    (('&' : Char) ∈ List.intercalate [('\n' : Char)] ls →
      chars ("&amp;") <:+: esc_lines (List.intercalate [('\n' : Char)] ls)) ∧
    (∀ l ∈ ls, ('<' : Char) ∉ htmlEscape l) ∧
    countNl (List.intercalate [('\n' : Char)] ls) = ls.length - 1 ∧
    skillEscField (List.intercalate [('\n' : Char)] ls) =
      List.intercalate (chars ("<br>")) (ls.map htmlEscape) := by
  have hne := intercalate_nl_ne_nil ls h2 h3
  have heq : esc_lines (List.intercalate [('\n' : Char)] ls) =
      List.intercalate (chars ("<br>")) (ls.map htmlEscape) := by
    unfold esc_lines
    rw [if_neg hne, splitlines_intercalate ls h1 h2 h3]
  have hinf : ∀ c0 : Char, c0 ≠ '\n' → c0 ∈ List.intercalate [('\n' : Char)] ls →
      escChar c0 <:+: esc_lines (List.intercalate [('\n' : Char)] ls) := by
    intro c0 hc0 hmem
    rcases mem_intercalate_inv hmem with hsep | ⟨l, hl, hcl⟩
    · rw [List.mem_singleton] at hsep
      exact absurd hsep hc0
    · rw [heq]
      exact (htmlEscape_infix_of_mem hcl).trans
        (infix_intercalate (List.mem_map_of_mem htmlEscape hl))
  refine ⟨heq, ?_, ?_, ?_, countNl_intercalate ls h1 h2, ?_⟩
  · intro hmem
    have h' := hinf '<' (by decide) hmem
    rwa [escChar_lt_of_lt] at h'
  · intro hmem
    have h' := hinf '&' (by decide) hmem
    rwa [escChar_amp] at h'
  · intro l _ hmem
    obtain ⟨a, _, hin⟩ := List.mem_flatMap.mp hmem
    exact escChar_not_lt a hin
  · unfold skillEscField
    rw [if_neg hne, htmlEscape_intercalate_nl]
    refine replaceNlBr_intercalate (ls.map htmlEscape) ?_
    intro p hp c hc
    obtain ⟨l, hl, rfl⟩ := List.mem_map.mp hp
    have hfree : ∀ x ∈ l, x ≠ '\n' := by
      intro x hx heqx
      have hb := h1 l hl x hx
      rw [heqx] at hb
      simp [isLineBreak] at hb
    exact htmlEscape_no_nl hfree c hc

/-- Witness for C5 on the two-line text "a<b\nc&d". -/
theorem c5_escaping_witness :
    ((∀ l ∈ [chars ("a<b"), chars ("c&d")], ∀ c ∈ l, isLineBreak c = false) ∧
     ([chars ("a<b"), chars ("c&d")] : List (List Char)) ≠ [] ∧
     ([chars ("a<b"), chars ("c&d")] : List (List Char)).getLast? ≠ some ([] : List Char)) ∧
    (esc_lines (List.intercalate [('\n' : Char)] [chars ("a<b"), chars ("c&d")]) =
       List.intercalate (chars ("<br>")) ([chars ("a<b"), chars ("c&d")].map htmlEscape) ∧
     (('<' : Char) ∈ List.intercalate [('\n' : Char)] [chars ("a<b"), chars ("c&d")] →
       chars ("&lt;") <:+:
         esc_lines (List.intercalate [('\n' : Char)] [chars ("a<b"), chars ("c&d")])) ∧
     (('&' : Char) ∈ List.intercalate [('\n' : Char)] [chars ("a<b"), chars ("c&d")] →
       chars ("&amp;") <:+:
         esc_lines (List.intercalate [('\n' : Char)] [chars ("a<b"), chars ("c&d")])) ∧
     (∀ l ∈ [chars ("a<b"), chars ("c&d")], ('<' : Char) ∉ htmlEscape l) ∧
     countNl (List.intercalate [('\n' : Char)] [chars ("a<b"), chars ("c&d")]) =
       ([chars ("a<b"), chars ("c&d")] : List (List Char)).length - 1 ∧
     skillEscField (List.intercalate [('\n' : Char)] [chars ("a<b"), chars ("c&d")]) =
       List.intercalate (chars ("<br>")) ([chars ("a<b"), chars ("c&d")].map htmlEscape)) :=
  ⟨⟨by decide, by decide, by decide⟩,
   c5_escaping [chars ("a<b"), chars ("c&d")] (by decide) (by decide) (by decide)⟩

theorem itemDocAfter_closes (a b c d e f g h i : List Char) :
    chars ("</html>\n") <:+ itemDocAfter a b c d e f g h i := ⟨_, rfl⟩

theorem skillDocAfter_closes (a b c d e f g h i j k : List Char) :
    chars ("    </html>\n") <:+ skillDocAfter a b c d e f g h i j k := ⟨_, rfl⟩

/-- C7: when the base64 encoding step fails on a non-empty icon blob (the
`except` path of the source), both renders substitute the placeholder ICON
block, still assemble the complete card document around it (closed by the
final `</html>` line), and still return the standard computed height — the
failure never escapes the render. -/
theorem c7_icon_error_resilience :
    (∀ (encode : List Nat → Except (List Char) (List Char)) (row : PopupRow ItemFields)
        (item_name item_desc : List Char) (character_id : Int) (e : List Char),
        row.fields.icon_blob ≠ [] →
        encode row.fields.icon_blob = Except.error e →
        item_icon_html_inner encode row.fields.icon_blob (stripC row.fields.icon_filename) =
          itemIconPlaceholder ∧
        (∃ p q : List Char,
          (render_item_template_popup encode row item_name item_desc character_id).1 =
            p ++ itemIconPlaceholder ++ q ∧ chars ("</html>\n") <:+ q) ∧
        (render_item_template_popup encode row item_name item_desc character_id).2 =
          itemApproxHeight row.fields.descricao item_desc row.fields.efeito_passivo
            row.fields.bonus_equipamento) ∧
    (∀ (encode : List Nat → Except (List Char) (List Char)) (row : PopupRow SkillFields)
        (skill_name skill_desc : List Char) (character_id : Int) (e : List Char),
        row.fields.icon_blob ≠ [] →
        encode row.fields.icon_blob = Except.error e →
        skill_icon_html_inner encode row.fields.icon_blob (stripC row.fields.icon_filename) =
          skillIconPlaceholder ∧
        (∃ p q : List Char,
          (render_skill_template_popup encode row skill_name skill_desc character_id).1 =
            p ++ skillIconPlaceholder ++ q ∧ chars ("    </html>\n") <:+ q) ∧
        (render_skill_template_popup encode row skill_name skill_desc character_id).2 =
          skillApproxHeight row.fields.descricao row.fields.efeito_bonus
            (if row.fields.card_border_type = [] then chars ("none")
              else row.fields.card_border_type)
            (if row.fields.image_border_type = [] then chars ("none")
              else row.fields.image_border_type)
            row.fields.icon_blob) := by
  constructor
  · intro encode row item_name item_desc character_id e hblob henc
    have hicon : item_icon_html_inner encode row.fields.icon_blob
        (stripC row.fields.icon_filename) = itemIconPlaceholder := by
      unfold item_icon_html_inner
      rw [if_pos hblob, henc]
    have hdoc : ∃ p q : List Char,
        (render_item_template_popup encode row item_name item_desc character_id).1 =
          p ++ itemIconPlaceholder ++ q ∧ chars ("</html>\n") <:+ q := by
      simp only [render_item_template_popup]
      rw [hicon]
      exact ⟨_, _, rfl, itemDocAfter_closes _ _ _ _ _ _ _ _ _⟩
    exact ⟨hicon, hdoc, rfl⟩
  · intro encode row skill_name skill_desc character_id e hblob henc
    have hicon : skill_icon_html_inner encode row.fields.icon_blob
        (stripC row.fields.icon_filename) = skillIconPlaceholder := by
      unfold skill_icon_html_inner
      rw [if_pos hblob, henc]
    have hdoc : ∃ p q : List Char,
        (render_skill_template_popup encode row skill_name skill_desc character_id).1 =
          p ++ skillIconPlaceholder ++ q ∧ chars ("    </html>\n") <:+ q := by
      simp only [render_skill_template_popup]
      rw [hicon]
      exact ⟨_, _, rfl, skillDocAfter_closes _ _ _ _ _ _ _ _ _ _ _⟩
    exact ⟨hicon, hdoc, rfl⟩

/-- Witness for C7: the always-failing encoder on a concrete row still
yields the placeholder and a complete document. -/
theorem c7_icon_error_resilience_witness :
    (sampleItemRow.fields.icon_blob ≠ [] ∧
     failEncode sampleItemRow.fields.icon_blob = Except.error (chars ("err"))) ∧
    (item_icon_html_inner failEncode sampleItemRow.fields.icon_blob
        (stripC sampleItemRow.fields.icon_filename) = itemIconPlaceholder ∧
     (∃ p q : List Char,
        (render_item_template_popup failEncode sampleItemRow (chars ("N")) (chars ("D")) 2).1 =
          p ++ itemIconPlaceholder ++ q ∧ chars ("</html>\n") <:+ q) ∧
     (render_item_template_popup failEncode sampleItemRow (chars ("N")) (chars ("D")) 2).2 =
       itemApproxHeight sampleItemRow.fields.descricao (chars ("D"))
         sampleItemRow.fields.efeito_passivo sampleItemRow.fields.bonus_equipamento) :=
  ⟨⟨by decide, rfl⟩,
   c7_icon_error_resilience.1 failEncode sampleItemRow (chars ("N")) (chars ("D")) 2
     (chars ("err")) (by decide) rfl⟩
